import Mathlib

/-!
# Album Categorizer front end: Search View and Detail View

A shallow embedding of `src/frontend/src/components/SearchPage.js` and
`src/frontend/src/components/AlbumDetails.js`.

* JavaScript strings are sequences of UTF-16 code units (`JSString`).
* Response payloads and component state are dynamically typed JSON values (`JSValue`).
* A React component is a record of its `useState` cells together with the requests it has
  in flight; event handlers and promise continuations are functions on that record.
* What a component returns from its function body is a tree of elements (`Node`);
  rendering yields `none` when the function body (or React, validating a child) throws.
-/

namespace AlbumCategorizer

set_option maxRecDepth 100000

/-! ## JavaScript strings -/

/-- A JavaScript string: a sequence of UTF-16 code units (each below `0x10000`). -/
abbrev JSString := List Nat

/-- UTF-16 code units of one Unicode scalar value. -/
def utf16Char (c : Char) : List Nat :=
  if c.toNat < 0x10000 then [c.toNat]
  else [0xD800 + (c.toNat - 0x10000) / 0x400, 0xDC00 + (c.toNat - 0x10000) % 0x400]

/-- The JavaScript string denoted by a source-code literal. -/
def utf16 (s : String) : JSString := s.toList.flatMap utf16Char

/-- Code units removed by `String.prototype.trim`: ECMAScript WhiteSpace and LineTerminator. -/
def isWhiteSpace (c : Nat) : Bool :=
  c == 0x09 || c == 0x0A || c == 0x0B || c == 0x0C || c == 0x0D || c == 0x20 || c == 0xA0 ||
  c == 0x1680 || (0x2000 ≤ c && c ≤ 0x200A) || c == 0x2028 || c == 0x2029 || c == 0x202F ||
  c == 0x205F || c == 0x3000 || c == 0xFEFF

/-- The method `String.prototype.trimStart`. -/
def trimStart (s : JSString) : JSString := s.dropWhile isWhiteSpace

/-- The method `String.prototype.trimEnd`. -/
def trimEnd (s : JSString) : JSString := (s.reverse.dropWhile isWhiteSpace).reverse

/-- The method `String.prototype.trim`: leading and trailing white space removed. -/
def trim (s : JSString) : JSString := trimEnd (trimStart s)

/-- A leading (high) surrogate code unit. -/
def isHighSurrogate (c : Nat) : Bool := 0xD800 ≤ c && c ≤ 0xDBFF

/-- A trailing (low) surrogate code unit. -/
def isLowSurrogate (c : Nat) : Bool := 0xDC00 ≤ c && c ≤ 0xDFFF

/-- The method `String.prototype.isWellFormed`: no unpaired surrogate code unit. -/
def isWellFormed : JSString → Bool
  | [] => true
  | c :: rest =>
    if isHighSurrogate c then
      match rest with
      | d :: rest2 => isLowSurrogate d && isWellFormed rest2
      | [] => false
    else if isLowSurrogate c then false
    else isWellFormed rest

/-- The characters `encodeURIComponent` leaves as they are:
ASCII letters, decimal digits and `- _ . ! ~ * ' ( )`. -/
def isUnescaped (c : Nat) : Bool :=
  (0x41 ≤ c && c ≤ 0x5A) || (0x61 ≤ c && c ≤ 0x7A) || (0x30 ≤ c && c ≤ 0x39) ||
  c == 0x2D || c == 0x5F || c == 0x2E || c == 0x21 || c == 0x7E || c == 0x2A ||
  c == 0x27 || c == 0x28 || c == 0x29

/-- UTF-8 octets of a code point. -/
def utf8 (cp : Nat) : List Nat :=
  if cp < 0x80 then [cp]
  else if cp < 0x800 then [0xC0 + cp / 0x40, 0x80 + cp % 0x40]
  else if cp < 0x10000 then [0xE0 + cp / 0x1000, 0x80 + cp / 0x40 % 0x40, 0x80 + cp % 0x40]
  else [0xF0 + cp / 0x40000, 0x80 + cp / 0x1000 % 0x40, 0x80 + cp / 0x40 % 0x40, 0x80 + cp % 0x40]

/-- Upper-case hexadecimal digit, as a code unit. -/
def hexDigit (n : Nat) : Nat := if n < 10 then 0x30 + n else 0x41 + (n - 10)

/-- One octet escaped as `%XX`. -/
def percentEncode (octet : Nat) : JSString := [0x25, hexDigit (octet / 16), hexDigit (octet % 16)]

/-- Escape of one code point: each UTF-8 octet as `%XX`. -/
def escapeCodePoint (cp : Nat) : JSString := (utf8 cp).flatMap percentEncode

/-- The global function `encodeURIComponent` (ECMAScript `Encode`): unescaped characters are
copied, every other code point is UTF-8 encoded and percent-escaped; `none` is the `URIError`
thrown at an unpaired surrogate. -/
def encodeURIComponent : JSString → Option JSString
  | [] => some []
  | c :: rest =>
    if isUnescaped c then (encodeURIComponent rest).map (c :: ·)
    else if isHighSurrogate c then
      match rest with
      | d :: rest2 =>
        if isLowSurrogate d then
          (encodeURIComponent rest2).map
            (escapeCodePoint ((c - 0xD800) * 0x400 + (d - 0xDC00) + 0x10000) ++ ·)
        else none
      | [] => none
    else if isLowSurrogate c then none
    else (encodeURIComponent rest).map (escapeCodePoint c ++ ·)

/-! ## JavaScript values -/

/-- A JavaScript value as it can arrive in a JSON response (plus `undefined`). Numbers are
the integral ones (identifiers, years), whose string form is the decimal numeral; objects
are property lists. -/
inductive JSValue where
  | undefined
  | null
  | bool (b : Bool)
  | num (n : Int)
  | str (s : JSString)
  | arr (xs : List JSValue)
  | obj (fields : List (String × JSValue))

namespace JSValue

/-- ECMAScript `ToBoolean`: `undefined`, `null`, `false`, `0` and `''` are falsy. -/
def truthy : JSValue → Bool
  | undefined => false
  | null => false
  | bool b => b
  | num n => n != 0
  | str s => s != []
  | arr _ => true
  | obj _ => true

/-- Property read `v.key` for the keys the components read (none is a built-in property of a
primitive or of an array): `none` is the `TypeError` of reading a property of `undefined` or
`null`; a missing property reads as `undefined`. -/
def get (v : JSValue) (key : String) : Option JSValue :=
  match v with
  | undefined => none
  | null => none
  | obj fields => some ((fields.lookup key).getD undefined)
  | _ => some undefined

mutual
/-- ECMAScript `ToString`, as applied by a template literal. -/
def toStr : JSValue → JSString
  | undefined => utf16 "undefined"
  | null => utf16 "null"
  | bool b => if b then utf16 "true" else utf16 "false"
  | num n => utf16 (toString n)
  | str s => s
  | arr xs => joinStr xs
  | obj _ => utf16 "[object Object]"
termination_by structural v => v
/-- The method `Array.prototype.join` with the default separator. -/
def joinStr : List JSValue → JSString
  | [] => []
  | x :: rest =>
    (match x with
     | undefined => []
     | null => []
     | _ => toStr x) ++ (match rest with | [] => [] | _ => utf16 ",") ++ joinStr rest
termination_by structural xs => xs
end

/-- The operator `a || b`. -/
def or (a b : JSValue) : JSValue := if a.truthy then a else b

/-- The operator `a && b`. -/
def and (a b : JSValue) : JSValue := if a.truthy then b else a

end JSValue

/-! ## Rendered output -/

/-- What a component renders: text, or an element with its props and children.
Event-handler props are not part of the tree; they are the transitions further down. -/
inductive Node where
  | text (s : JSString)
  | elem (tag : String) (props : List (String × JSValue)) (children : List Node)

namespace Node

mutual
/-- The elements with the given tag, the node itself included, in document order. -/
def byTag (tag : String) : Node → List Node
  | text _ => []
  | elem t props children =>
    (if t = tag then [elem t props children] else []) ++ byTagList tag children
termination_by structural n => n
/-- The elements with the given tag inside a list of nodes, in document order. -/
def byTagList (tag : String) : List Node → List Node
  | [] => []
  | n :: rest => byTag tag n ++ byTagList tag rest
termination_by structural ns => ns
end

mutual
/-- The DOM property `textContent`: the text of the node and its descendants, concatenated. -/
def textContent : Node → JSString
  | text s => s
  | elem _ _ children => textContentList children
termination_by structural n => n
/-- Concatenated text of a list of nodes. -/
def textContentList : List Node → JSString
  | [] => []
  | n :: rest => textContent n ++ textContentList rest
termination_by structural ns => ns
end

/-- A prop of an element (`undefined` when it is not set, or on text). -/
def prop (name : String) : Node → JSValue
  | text _ => JSValue.undefined
  | elem _ props _ => (props.lookup name).getD JSValue.undefined

end Node

mutual
/-- A JSX child `{value}` as React renders it: `undefined`, `null`, booleans and `''` render
nothing, strings and numbers render as text, arrays render their items; `none` is React's
"Objects are not valid as a React child". -/
def reactChild : JSValue → Option (List Node)
  | JSValue.undefined => some []
  | JSValue.null => some []
  | JSValue.bool _ => some []
  | JSValue.num n => some [Node.text (JSValue.num n).toStr]
  | JSValue.str s => if s = [] then some [] else some [Node.text s]
  | JSValue.arr xs => reactChildren xs
  | JSValue.obj _ => none
termination_by structural v => v
/-- The items of an array child, rendered in order. -/
def reactChildren : List JSValue → Option (List Node)
  | [] => some []
  | x :: rest =>
    match reactChild x, reactChildren rest with
    | some a, some b => some (a ++ b)
    | _, _ => none
termination_by structural xs => xs
end

/-- Items of `xs.map((item, index) => f item index)`, indices starting at `i`. -/
def mapFrom (f : JSValue → Nat → Option Node) : Nat → List JSValue → Option (List Node)
  | _, [] => some []
  | i, x :: rest =>
    match f x i, mapFrom f (i + 1) rest with
    | some y, some ys => some (y :: ys)
    | _, _ => none

/-- The call `v.map(f)` of the components: `Array.prototype.map` when `v` is an array; `none`
is the `TypeError` raised when `v` is anything else (a JSON value has no other `map`). -/
def jsMap (v : JSValue) (f : JSValue → Nat → Option Node) : Option (List Node) :=
  match v with
  | JSValue.arr xs => mapFrom f 0 xs
  | _ => none

/-- An in-flight `axios.get(url)`: the sequence number it was issued under, and its URL. -/
structure Request where
  rid : Nat
  url : JSString
deriving DecidableEq

/-! ## SearchPage.js -/

namespace SearchPage

/-- The component: its three `useState` cells, the requests it has issued that have not
settled, how many it has issued, and what it wrote with `console.error`. -/
structure World where
  query : JSString
  albums : JSValue
  loading : Bool
  pending : List Request
  issued : Nat
  console : List String

/-- First render: `useState('')`, `useState([])`, `useState(false)`. -/
def init : World :=
  { query := [], albums := JSValue.arr [], loading := false,
    pending := [], issued := 0, console := [] }

/-- The URL of the search request, given the escaped query. -/
def searchUrl (escaped : JSString) : JSString :=
  utf16 "http://localhost:5000/api/search?q=" ++ escaped

/-- The handler `handleSearch`, up to its `await`. `if (!query.trim()) return;` leaves
everything as it is. Otherwise `setLoading(true)`, then the template literal is evaluated
inside the `try`: when `encodeURIComponent` throws, `catch` logs, `finally` runs
`setLoading(false)` and no request is sent; else `axios.get` sends the request. -/
def handleSearch (w : World) : World :=
  if !(JSValue.str (trim w.query)).truthy then w
  else
    match encodeURIComponent w.query with
    | none =>
      { w with loading := false, console := w.console ++ ["Error searching albums:"] }
    | some escaped =>
      { w with loading := true,
               pending := w.pending ++ [{ rid := w.issued, url := searchUrl escaped }],
               issued := w.issued + 1 }

/-- The rest of `handleSearch`, run when request `rid` settles: `some data` is a response
with `response.data = data` (`setAlbums(response.data)`), `none` a rejection (`catch` logs);
`finally` runs `setLoading(false)` in both cases. The state updates are applied together. -/
def settle (w : World) (rid : Nat) (outcome : Option JSValue) : World :=
  match outcome with
  | some data =>
    { w with albums := data, loading := false,
             pending := w.pending.filter (fun r => r.rid != rid) }
  | none =>
    { w with loading := false,
             pending := w.pending.filter (fun r => r.rid != rid),
             console := w.console ++ ["Error searching albums:"] }

/-- What can happen to a mounted Search View. -/
inductive Event where
  | change (value : JSString)
  | submit
  | settle (rid : Nat) (outcome : Option JSValue)

/-- One event. `onChange` stores the typed text. The form is submitted through its submit
button, which is `disabled={loading}`: no submission while `loading`. A request settles only
while it is in flight. `none`: the event cannot happen in this state. -/
def step (w : World) : Event → Option World
  | Event.change value => some { w with query := value }
  | Event.submit => if w.loading then none else some (handleSearch w)
  | Event.settle rid outcome =>
    if w.pending.any (fun r => r.rid == rid) then some (settle w rid outcome) else none

/-- A sequence of events, from the left. -/
def run (w : World) : List Event → Option World
  | [] => some w
  | e :: rest =>
    match step w e with
    | some w2 => run w2 rest
    | none => none

/-- The form: the text input and the submit button. -/
def form (w : World) : Node :=
  Node.elem "Form" [("className", JSValue.str (utf16 "mb-4"))]
    [Node.elem "Row" []
      [Node.elem "Col" [("md", JSValue.num 8)]
        [Node.elem "Form.Control"
          [("type", JSValue.str (utf16 "text")),
           ("placeholder", JSValue.str (utf16 "Search for albums...")),
           ("value", JSValue.str w.query)] []],
       Node.elem "Col" [("md", JSValue.num 4)]
        [Node.elem "Button"
          [("variant", JSValue.str (utf16 "primary")),
           ("type", JSValue.str (utf16 "submit")),
           ("disabled", JSValue.bool w.loading)]
          [Node.text (if w.loading then utf16 "Searching..." else utf16 "Search")]]]]

/-- One result card: the body of `albums.map((album) => ...)`. -/
def card (album : JSValue) (_index : Nat) : Option Node :=
  match album.get "id", album.get "thumb", album.get "title", album.get "artist",
        album.get "year" with
  | some id, some thumb, some title, some artist, some year =>
    match reactChild title, reactChild artist, reactChild year with
    | some titleNodes, some artistNodes, some yearNodes =>
      some (Node.elem "Col" [("key", id)]
        [Node.elem "Card" []
          [Node.elem "Card.Img"
            [("variant", JSValue.str (utf16 "top")),
             ("src", thumb.or (JSValue.str (utf16 "placeholder.jpg"))),
             ("alt", title),
             ("style", JSValue.obj [("height", JSValue.str (utf16 "200px")),
                                    ("objectFit", JSValue.str (utf16 "cover"))])] [],
           Node.elem "Card.Body" []
            [Node.elem "Card.Title" [] titleNodes,
             Node.elem "Card.Text" [] (artistNodes ++ [Node.text (utf16 " - ")] ++ yearNodes),
             Node.elem "Link"
              [("to", JSValue.str (utf16 "/album/" ++ id.toStr)),
               ("className", JSValue.str (utf16 "btn btn-primary"))]
              [Node.text (utf16 "View Details")]]]])
    | _, _, _ => none
  | _, _, _, _, _ => none

/-- What `SearchPage` returns. -/
def render (w : World) : Option Node :=
  match jsMap w.albums card with
  | some cards =>
    some (Node.elem "div" []
      [Node.elem "h1" [("className", JSValue.str (utf16 "mb-4"))]
        [Node.text (utf16 "Search Albums")],
       form w,
       Node.elem "Row"
        [("xs", JSValue.num 1), ("md", JSValue.num 2), ("lg", JSValue.num 3),
         ("className", JSValue.str (utf16 "g-4"))] cards])
  | none => none

end SearchPage

/-! ## AlbumDetails.js -/

namespace AlbumDetails

/-- The component: the route parameter `id`, its two `useState` cells, the requests it has
issued that have not settled, how many it has issued, and what it wrote with
`console.error`. -/
structure World where
  id : JSString
  album : JSValue
  loading : Bool
  pending : List Request
  issued : Nat
  console : List String

/-- The URL of the detail request. -/
def albumUrl (id : JSString) : JSString := utf16 "http://localhost:5000/api/album/" ++ id

/-- The call `fetchAlbumDetails()` made by the effect `useEffect(..., [id])`, up to its
`await`: one `axios.get` for the current `id`. It writes no state. -/
def fetchAlbumDetails (w : World) : World :=
  { w with pending := w.pending ++ [{ rid := w.issued, url := albumUrl w.id }],
           issued := w.issued + 1 }

/-- First display at `/album/<id>`: `useState(null)`, `useState(true)`, then the effect,
run once. -/
def mount (id : JSString) : World :=
  fetchAlbumDetails
    { id := id, album := JSValue.null, loading := true,
      pending := [], issued := 0, console := [] }

/-- The route parameter becomes `id` while the view stays mounted: the effect runs again
when its dependency `[id]` has changed, and only then. -/
def navigate (w : World) (id : JSString) : World :=
  if id = w.id then w else fetchAlbumDetails { w with id := id }

/-- The rest of `fetchAlbumDetails`, run when request `rid` settles: `some data` is a
response with `response.data = data` (`setAlbum(response.data)`), `none` a rejection
(`catch` logs); `finally` runs `setLoading(false)` in both cases. No comparison with the
current `id` is made. The state updates are applied together. -/
def settle (w : World) (rid : Nat) (outcome : Option JSValue) : World :=
  match outcome with
  | some data =>
    { w with album := data, loading := false,
             pending := w.pending.filter (fun r => r.rid != rid) }
  | none =>
    { w with loading := false,
             pending := w.pending.filter (fun r => r.rid != rid),
             console := w.console ++ ["Error fetching album details:"] }

/-- What can happen to a mounted Detail View. -/
inductive Event where
  | navigate (id : JSString)
  | settle (rid : Nat) (outcome : Option JSValue)

/-- One event; a request settles only while it is in flight (`none` otherwise). -/
def step (w : World) : Event → Option World
  | Event.navigate id => some (navigate w id)
  | Event.settle rid outcome =>
    if w.pending.any (fun r => r.rid == rid) then some (settle w rid outcome) else none

/-- A sequence of events, from the left. -/
def run (w : World) : List Event → Option World
  | [] => some w
  | e :: rest =>
    match step w e with
    | some w2 => run w2 rest
    | none => none

/-- The element returned while `loading`. -/
def loadingView : Node := Node.elem "div" [] [Node.text (utf16 "Loading...")]

/-- The element returned when `!album`. -/
def notFoundView : Node := Node.elem "div" [] [Node.text (utf16 "Album not found")]

/-- One badge: the body of `album.genres.map(...)` and of `album.styles.map(...)`. -/
def badge (bg : String) (label : JSValue) (index : Nat) : Option Node :=
  match reactChild label with
  | some labelNodes =>
    some (Node.elem "Badge"
      [("key", JSValue.num index), ("bg", JSValue.str (utf16 bg)),
       ("className", JSValue.str (utf16 "me-2"))] labelNodes)
  | none => none

/-- The value of the JSX child `track.duration && ...`, the template literal included. -/
def durationChild (duration : JSValue) : JSValue :=
  duration.and (JSValue.str (utf16 "(" ++ duration.toStr ++ utf16 ")"))

/-- One track line: the body of `album.tracklist.map(...)`. -/
def trackItem (track : JSValue) (index : Nat) : Option Node :=
  match track.get "position", track.get "title", track.get "duration" with
  | some position, some title, some duration =>
    match reactChild position, reactChild title, reactChild (durationChild duration) with
    | some positionNodes, some titleNodes, some durationNodes =>
      some (Node.elem "ListGroup.Item" [("key", JSValue.num index)]
        (positionNodes ++ [Node.text (utf16 ". ")] ++ titleNodes ++ [Node.text (utf16 " ")]
          ++ durationNodes))
    | _, _, _ => none
  | _, _, _ => none

/-- The card returned for a truthy `album`. -/
def loadedView (album : JSValue) : Option Node :=
  match album.get "title", album.get "artist", album.get "year", album.get "thumb",
        album.get "genres", album.get "styles", album.get "tracklist" with
  | some title, some artist, some year, some thumb, some genres, some styles, some tracklist =>
    match jsMap genres (badge "primary"), jsMap styles (badge "secondary"),
          jsMap tracklist trackItem with
    | some genreBadges, some styleBadges, some trackItems =>
      match reactChild title, reactChild artist, reactChild year with
      | some titleNodes, some artistNodes, some yearNodes =>
        some (Node.elem "div" []
          [Node.elem "Card" []
            [Node.elem "Card.Header" []
              [Node.elem "h2" [] titleNodes,
               Node.elem "h4" [] (artistNodes ++ [Node.text (utf16 " - ")] ++ yearNodes)],
             Node.elem "Card.Body" []
              [Node.elem "div" [("className", JSValue.str (utf16 "mb-4"))]
                [Node.elem "img"
                  [("src", thumb.or (JSValue.str (utf16 "placeholder.jpg"))),
                   ("alt", title),
                   ("style", JSValue.obj [("maxWidth", JSValue.str (utf16 "300px"))])] []],
               Node.elem "div" [("className", JSValue.str (utf16 "mb-3"))]
                (Node.elem "h5" [] [Node.text (utf16 "Genres:")] :: genreBadges),
               Node.elem "div" [("className", JSValue.str (utf16 "mb-3"))]
                (Node.elem "h5" [] [Node.text (utf16 "Styles:")] :: styleBadges),
               Node.elem "h5" [] [Node.text (utf16 "Tracklist:")],
               Node.elem "ListGroup" [] trackItems]]])
      | _, _, _ => none
    | _, _, _ => none
  | _, _, _, _, _, _, _ => none

/-- What `AlbumDetails` returns: `if (loading) ...; if (!album) ...; return (...)`. -/
def render (w : World) : Option Node :=
  if w.loading then some loadingView
  else if !w.album.truthy then some notFoundView
  else loadedView w.album

end AlbumDetails

/-- The Search View after the user has typed `q` into a fresh form. -/
def SearchPage.typed (q : JSString) : SearchPage.World := { SearchPage.init with query := q }

/-! ## The records of the catalog API -/

/-- A string or a number: what a template literal or a JSX child shows as text. -/
def JSValue.isText : JSValue → Bool
  | JSValue.str _ => true
  | JSValue.num _ => true
  | _ => false

/-- A string. -/
def JSValue.isStr : JSValue → Bool
  | JSValue.str _ => true
  | _ => false

/-- A string, `null`, or nothing. -/
def JSValue.isOptStr : JSValue → Bool
  | JSValue.str _ => true
  | JSValue.null => true
  | JSValue.undefined => true
  | _ => false

/-- An Album Summary `{ id, title, artist, year, thumb }`: an object with an `id` and a `year`
that are numbers or strings, a `title` and an `artist` that are strings, and a `thumb` that is
a string when it is there at all. -/
def isAlbumSummary : JSValue → Bool
  | JSValue.obj fields =>
    ((fields.lookup "id").getD JSValue.undefined).isText &&
    ((fields.lookup "title").getD JSValue.undefined).isStr &&
    ((fields.lookup "artist").getD JSValue.undefined).isStr &&
    ((fields.lookup "year").getD JSValue.undefined).isText &&
    ((fields.lookup "thumb").getD JSValue.undefined).isOptStr
  | _ => false

/-- A field of a record (`undefined` when it is missing or the value is no object). -/
def JSValue.field (v : JSValue) (key : String) : JSValue := (v.get key).getD JSValue.undefined

/-- What one rendered result card shows: the texts of its `Card.Title` and `Card.Text`, and
the `to` of its `Link`. -/
def SearchPage.cardFacts (c : Node) : List JSString × List JSString × List JSValue :=
  ((c.byTag "Card.Title").map Node.textContent,
   (c.byTag "Card.Text").map Node.textContent,
   (c.byTag "Link").map (Node.prop "to"))

/-- What the card of an Album Summary is to show: its title, `artist - year`, and the link
target `/album/<id>`. -/
def SearchPage.expectedFacts (album : JSValue) : List JSString × List JSString × List JSValue :=
  ([(album.field "title").toStr],
   [(album.field "artist").toStr ++ utf16 " - " ++ (album.field "year").toStr],
   [JSValue.str (utf16 "/album/" ++ (album.field "id").toStr)])

/-- The response of the spec's scenario: `[{id:1,title:'Kind of Blue',artist:'Miles Davis',
year:1959,thumb:null}]`. -/
def kindOfBlueSummary : JSValue :=
  JSValue.obj [("id", JSValue.num 1), ("title", JSValue.str (utf16 "Kind of Blue")),
    ("artist", JSValue.str (utf16 "Miles Davis")), ("year", JSValue.num 1959),
    ("thumb", JSValue.null)]


/-- What the submit button shows: its `disabled` prop and its label. -/
def SearchPage.submitButton (w : SearchPage.World) : List (JSValue × JSString) :=
  ((SearchPage.form w).byTag "Button").map (fun b => (b.prop "disabled", b.textContent))

/-- The events of the user retyping the query, one per text. -/
def SearchPage.edits (texts : List JSString) : List SearchPage.Event :=
  texts.map SearchPage.Event.change


/-- Either nothing is in flight and the view is idle, or one request is and it is busy. -/
def SearchPage.Inv (w : SearchPage.World) : Prop :=
  (w.pending = [] ∧ w.loading = false) ∨ (∃ r, w.pending = [r] ∧ w.loading = true)

/-- A track `{ position, title, duration? }`: an object with a `position` and a `title` that
are strings and a `duration` that is a string when it is there at all. -/
def isTrack : JSValue → Bool
  | JSValue.obj fields =>
    ((fields.lookup "position").getD JSValue.undefined).isStr &&
    ((fields.lookup "title").getD JSValue.undefined).isStr &&
    ((fields.lookup "duration").getD JSValue.undefined).isOptStr
  | _ => false

/-- An array of strings. -/
def isStrList : JSValue → Bool
  | JSValue.arr xs => xs.all JSValue.isStr
  | _ => false

/-- An array of tracks. -/
def isTrackList : JSValue → Bool
  | JSValue.arr xs => xs.all isTrack
  | _ => false

/-- An array of Album Summaries. -/
def isSummaryList : JSValue → Bool
  | JSValue.arr xs => xs.all isAlbumSummary
  | _ => false

/-- An Album Detail `{ id, title, artist, year, thumb, genres, styles, tracklist }`: an
object with a `title` and an `artist` that are strings, a `year` that is a number or a
string, a `thumb` that is a string when it is there at all, `genres` and `styles` that are
arrays of strings and a `tracklist` that is an array of tracks. -/
def isAlbumDetail : JSValue → Bool
  | JSValue.obj fields =>
    ((fields.lookup "title").getD JSValue.undefined).isStr &&
    ((fields.lookup "artist").getD JSValue.undefined).isStr &&
    ((fields.lookup "year").getD JSValue.undefined).isText &&
    ((fields.lookup "thumb").getD JSValue.undefined).isOptStr &&
    isStrList ((fields.lookup "genres").getD JSValue.undefined) &&
    isStrList ((fields.lookup "styles").getD JSValue.undefined) &&
    isTrackList ((fields.lookup "tracklist").getD JSValue.undefined)
  | _ => false

/-- The items of an array (none for any other value). -/
def JSValue.items : JSValue → List JSValue
  | JSValue.arr xs => xs
  | _ => []

/-- A track has a duration when its `duration` is a string that is not empty. -/
def hasDuration (track : JSValue) : Bool :=
  match track.field "duration" with
  | JSValue.str s => s != []
  | _ => false

/-- The line a track is to show: position, `. `, title, a space, and the duration in
parentheses when the track has one. -/
def trackLine (track : JSValue) : JSString :=
  (track.field "position").toStr ++ utf16 ". " ++ (track.field "title").toStr ++ utf16 " " ++
    (if hasDuration track then utf16 "(" ++ (track.field "duration").toStr ++ utf16 ")" else [])

/-- What the rendered badges show, in document order: the `bg` of each and its text. -/
def AlbumDetails.badgeFacts (tree : Node) : List (JSValue × JSString) :=
  (tree.byTag "Badge").map (fun b => (b.prop "bg", b.textContent))

/-- What the rendered track list shows, in document order: the text of each item. -/
def AlbumDetails.trackLines (tree : Node) : List JSString :=
  (tree.byTag "ListGroup.Item").map Node.textContent

/-- The response of the spec's scenario for `/album/1`. -/
def kindOfBlueDetail : JSValue :=
  JSValue.obj [("id", JSValue.num 1), ("title", JSValue.str (utf16 "Kind of Blue")),
    ("artist", JSValue.str (utf16 "Miles Davis")), ("year", JSValue.num 1959),
    ("genres", JSValue.arr [JSValue.str (utf16 "Jazz")]),
    ("styles", JSValue.arr [JSValue.str (utf16 "Modal")]),
    ("tracklist", JSValue.arr [JSValue.obj [("position", JSValue.str (utf16 "A1")),
      ("title", JSValue.str (utf16 "So What")), ("duration", JSValue.str (utf16 "9:22"))]])]

/-- A second album, for `/album/2`. -/
def blueTrainDetail : JSValue :=
  JSValue.obj [("id", JSValue.num 2), ("title", JSValue.str (utf16 "Blue Train")),
    ("artist", JSValue.str (utf16 "John Coltrane")), ("year", JSValue.num 1958),
    ("genres", JSValue.arr [JSValue.str (utf16 "Jazz")]),
    ("styles", JSValue.arr [JSValue.str (utf16 "Hard Bop")]),
    ("tracklist", JSValue.arr [JSValue.obj [("position", JSValue.str (utf16 "A1")),
      ("title", JSValue.str (utf16 "Blue Train"))]])]

/-- A detail payload with a title and empty lists but no artist and no year. -/
def incompleteDetail : JSValue :=
  JSValue.obj [("title", JSValue.str (utf16 "Kind of Blue")), ("genres", JSValue.arr []),
    ("styles", JSValue.arr []), ("tracklist", JSValue.arr [])]

/-- The payload of the last successful response among the events of a Detail View. -/
def AlbumDetails.lastData : List AlbumDetails.Event → Option JSValue
  | [] => none
  | e :: rest =>
    match AlbumDetails.lastData rest with
    | some data => some data
    | none =>
      match e with
      | AlbumDetails.Event.settle _ (some data) => some data
      | _ => none

/-- The payload of the last successful response among the events of a Search View. -/
def SearchPage.lastData : List SearchPage.Event → Option JSValue
  | [] => none
  | e :: rest =>
    match SearchPage.lastData rest with
    | some data => some data
    | none =>
      match e with
      | SearchPage.Event.settle _ (some data) => some data
      | _ => none

/-- The events of the route parameter changing, one per identifier. -/
def AlbumDetails.navigations (ids : List JSString) : List AlbumDetails.Event :=
  ids.map AlbumDetails.Event.navigate

/-- What a Detail View shows and waits for: its route parameter, the requests in flight, its
`loading` flag and the text it renders. -/
def AlbumDetails.observe (w : AlbumDetails.World) :
    JSString × List Request × Bool × Option JSString :=
  (w.id, w.pending, w.loading, (AlbumDetails.render w).map Node.textContent)


/-- A search payload whose only record has an id and nothing else. -/
def incompleteSummaries : JSValue := JSValue.arr [JSValue.obj [("id", JSValue.num 1)]]

/-- The text a Search View renders. -/
def SearchPage.observe (w : SearchPage.World) : Option JSString :=
  (SearchPage.render w).map Node.textContent


/-- What the header of the loaded card shows: the texts of its `h2` and `h4`, and how many
`Card` elements the tree has. -/
def AlbumDetails.headerFacts (tree : Node) : List JSString × List JSString × Nat :=
  ((tree.byTag "h2").map Node.textContent, (tree.byTag "h4").map Node.textContent,
   (tree.byTag "Card").length)

/-- What the header of the loaded card of an album is to show: its title, `artist - year`,
in one card. -/
def AlbumDetails.expectedHeader (album : JSValue) : List JSString × List JSString × Nat :=
  ([(album.field "title").toStr],
   [(album.field "artist").toStr ++ utf16 " - " ++ (album.field "year").toStr], 1)

/-- A response body that is text, not a record. -/
def htmlPayload : JSValue := JSValue.str (utf16 "<html>")

/-- The album of the spec's scenario, its track carrying the number 0 as duration. -/
def zeroDurationDetail : JSValue :=
  JSValue.obj [("id", JSValue.num 1), ("title", JSValue.str (utf16 "Kind of Blue")),
    ("artist", JSValue.str (utf16 "Miles Davis")), ("year", JSValue.num 1959),
    ("genres", JSValue.arr [JSValue.str (utf16 "Jazz")]),
    ("styles", JSValue.arr [JSValue.str (utf16 "Modal")]),
    ("tracklist", JSValue.arr [JSValue.obj [("position", JSValue.str (utf16 "A1")),
      ("title", JSValue.str (utf16 "So What")), ("duration", JSValue.num 0)]])]

/-- The album of the spec's scenario, its one genre an empty object. -/
def objectGenreDetail : JSValue :=
  JSValue.obj [("id", JSValue.num 1), ("title", JSValue.str (utf16 "Kind of Blue")),
    ("artist", JSValue.str (utf16 "Miles Davis")), ("year", JSValue.num 1959),
    ("genres", JSValue.arr [JSValue.obj []]),
    ("styles", JSValue.arr [JSValue.str (utf16 "Modal")]),
    ("tracklist", JSValue.arr [])]

/-! ## Strings: trimming and escaping -/

theorem forall_dropWhile_iff (p : Nat → Bool) (l : List Nat) :
    (∀ c ∈ l.dropWhile p, p c = true) ↔ ∀ c ∈ l, p c = true := by
  induction l with
  | nil => simp
  | cons a l ih =>
    by_cases h : p a = true
    · simp [List.dropWhile_cons, h, ih]
    · simp [List.dropWhile_cons, h]

/-- The value of `query.trim()` is the empty string exactly when every code unit of `query`
is white space. -/
theorem trim_eq_nil_iff (q : JSString) : trim q = [] ↔ ∀ c ∈ q, isWhiteSpace c = true := by
  unfold trim trimEnd trimStart
  rw [List.reverse_eq_nil_iff, List.dropWhile_eq_nil_iff]
  simp only [List.mem_reverse]
  exact forall_dropWhile_iff isWhiteSpace q

theorem not_surrogate_of_isUnescaped (c : Nat) (h : isUnescaped c = true) :
    isHighSurrogate c = false ∧ isLowSurrogate c = false := by
  simp only [isUnescaped, isHighSurrogate, isLowSurrogate, Bool.or_eq_true, Bool.and_eq_true,
    decide_eq_true_eq, beq_iff_eq, Bool.and_eq_false_iff, decide_eq_false_iff_not] at *
  omega

theorem encodeURIComponent_isSome_aux (n : Nat) :
    ∀ q : JSString, q.length ≤ n → (encodeURIComponent q).isSome = isWellFormed q := by
  induction n with
  | zero =>
    intro q hq
    have : q = [] := List.length_eq_zero.mp (Nat.le_zero.mp hq)
    subst this
    rfl
  | succ n ih =>
    intro q hq
    rcases q with _ | ⟨c, _ | ⟨d, rest2⟩⟩
    · rfl
    · have h0 := ih [] (Nat.zero_le n)
      by_cases hu : isUnescaped c = true
      · have hs := not_surrogate_of_isUnescaped c hu
        simp [encodeURIComponent, isWellFormed, hu, hs]
      · by_cases hh : isHighSurrogate c = true
        · simp [encodeURIComponent, isWellFormed, hu, hh]
        · by_cases hl : isLowSurrogate c = true
          · simp [encodeURIComponent, isWellFormed, hu, hh, hl]
          · simp [encodeURIComponent, isWellFormed, hu, hh, hl]
    · have hrest : (d :: rest2).length ≤ n := by simpa using hq
      have hrest2 : rest2.length ≤ n := by
        simp only [List.length_cons] at hrest
        omega
      have ih1 := ih (d :: rest2) hrest
      have ih2 := ih rest2 hrest2
      by_cases hu : isUnescaped c = true
      · have hs := not_surrogate_of_isUnescaped c hu
        rw [encodeURIComponent, isWellFormed]
        simp [hu, hs, ih1]
      · by_cases hh : isHighSurrogate c = true
        · by_cases hl : isLowSurrogate d = true
          · rw [encodeURIComponent, isWellFormed]
            simp [hu, hh, hl, ih2]
          · rw [encodeURIComponent, isWellFormed]
            simp [hu, hh, hl]
        · by_cases hl : isLowSurrogate c = true
          · rw [encodeURIComponent, isWellFormed]
            simp [hu, hh, hl]
          · rw [encodeURIComponent, isWellFormed]
            simp [hu, hh, hl, ih1]

/-- The function `encodeURIComponent` returns exactly on well-formed strings. -/
theorem encodeURIComponent_isSome (q : JSString) :
    (encodeURIComponent q).isSome = isWellFormed q :=
  encodeURIComponent_isSome_aux q.length q (Nat.le_refl _)

/-! ## Search View: submission -/

theorem handleSearch_blank (w : SearchPage.World) (h : trim w.query = []) :
    SearchPage.handleSearch w = w := by
  simp [SearchPage.handleSearch, JSValue.truthy, h]

theorem handleSearch_sends (w : SearchPage.World) (e : JSString) (h : trim w.query ≠ [])
    (he : encodeURIComponent w.query = some e) :
    SearchPage.handleSearch w =
      { w with loading := true,
               pending := w.pending ++ [{ rid := w.issued, url := SearchPage.searchUrl e }],
               issued := w.issued + 1 } := by
  simp [SearchPage.handleSearch, JSValue.truthy, h, he]

theorem trim_ne_nil_of_exists (q : JSString) (h : ∃ c ∈ q, isWhiteSpace c = false) :
    trim q ≠ [] := by
  intro hq
  obtain ⟨c, hc, hws⟩ := h
  have := (trim_eq_nil_iff q).mp hq c hc
  simp [hws] at this

/-- C1, as stated, fails: the query `'\uD800'` (one unpaired surrogate) contains a
non-white-space character, yet its submission issues no request, because
`encodeURIComponent` throws inside the `try` before `axios.get` is reached. -/
theorem handleSearch_unpaired_surrogate_no_request :
    (∃ c ∈ (SearchPage.typed [0xD800]).query, isWhiteSpace c = false) ∧
    (SearchPage.handleSearch (SearchPage.typed [0xD800])).pending = [] ∧
    (SearchPage.handleSearch (SearchPage.typed [0xD800])).issued = 0 := by
  refine ⟨⟨0xD800, by simp [SearchPage.typed], by decide⟩, ?_, ?_⟩ <;> rfl

/-- C1 (amended): a submission whose query is empty or all white space (`query.trim()` is
the empty string) issues no request and leaves `query`, `albums`, `loading` (the whole
component) exactly as they were; a submission whose query has a non-white-space character
and no unpaired surrogate issues exactly one GET request. -/
theorem handleSearch_blank_noop_else_one_request (w : SearchPage.World) :
    ((∀ c ∈ w.query, isWhiteSpace c = true) →
      trim w.query = [] ∧ SearchPage.handleSearch w = w) ∧
    ((∃ c ∈ w.query, isWhiteSpace c = false) → isWellFormed w.query = true →
      ∃ url, (SearchPage.handleSearch w).pending = w.pending ++ [{ rid := w.issued, url := url }] ∧
        (SearchPage.handleSearch w).issued = w.issued + 1) := by
  constructor
  · intro h
    have ht := (trim_eq_nil_iff w.query).mpr h
    exact ⟨ht, handleSearch_blank w ht⟩
  · intro h hwf
    have hne := trim_ne_nil_of_exists w.query h
    have hs := encodeURIComponent_isSome w.query
    rw [hwf] at hs
    obtain ⟨e, he⟩ := Option.isSome_iff_exists.mp hs
    exact ⟨SearchPage.searchUrl e, by rw [handleSearch_sends w e hne he],
      by rw [handleSearch_sends w e hne he]⟩

/-- Witness of C1 (amended): three blanks are a no-op; `'miles davis'` issues one request. -/
theorem handleSearch_blank_noop_else_one_request_witness :
    SearchPage.handleSearch (SearchPage.typed (utf16 "   ")) = SearchPage.typed (utf16 "   ") ∧
    ∃ url, (SearchPage.handleSearch (SearchPage.typed (utf16 "miles davis"))).pending =
      (SearchPage.typed (utf16 "miles davis")).pending ++
        [{ rid := (SearchPage.typed (utf16 "miles davis")).issued, url := url }] ∧
      (SearchPage.handleSearch (SearchPage.typed (utf16 "miles davis"))).issued =
        (SearchPage.typed (utf16 "miles davis")).issued + 1 :=
  ⟨((handleSearch_blank_noop_else_one_request (SearchPage.typed (utf16 "   "))).1
      (by decide)).2,
   (handleSearch_blank_noop_else_one_request (SearchPage.typed (utf16 "miles davis"))).2
      ⟨109, by decide, by decide⟩ (by decide)⟩

/-- C2, as stated, fails: the request for `' miles davis '` carries the query as typed,
`...?q=%20miles%20davis%20`, not its trimmed form `...?q=miles%20davis`, which is what
`'miles davis'` produces. -/
theorem handleSearch_sends_untrimmed_query :
    (SearchPage.handleSearch (SearchPage.typed (utf16 " miles davis "))).pending =
      [{ rid := 0, url := utf16 "http://localhost:5000/api/search?q=%20miles%20davis%20" }] ∧
    (encodeURIComponent (trim (utf16 " miles davis "))).map SearchPage.searchUrl =
      some (utf16 "http://localhost:5000/api/search?q=miles%20davis") ∧
    (SearchPage.handleSearch (SearchPage.typed (utf16 "miles davis"))).pending =
      [{ rid := 0, url := utf16 "http://localhost:5000/api/search?q=miles%20davis" }] ∧
    (SearchPage.handleSearch (SearchPage.typed (utf16 " miles davis "))).pending ≠
      (SearchPage.handleSearch (SearchPage.typed (utf16 "miles davis"))).pending := by
  decide

/-- C2 (amended): for every query with a non-white-space character and no unpaired
surrogate, the single request issued by a submission has the URL
`http://localhost:5000/api/search?q=` followed by `encodeURIComponent(query)`, the query as
typed (white space around it is escaped and sent, not removed). -/
theorem handleSearch_url (w : SearchPage.World)
    (h : ∃ c ∈ w.query, isWhiteSpace c = false) (hwf : isWellFormed w.query = true) :
    ∃ e, encodeURIComponent w.query = some e ∧
      (SearchPage.handleSearch w).pending = w.pending ++
        [{ rid := w.issued, url := utf16 "http://localhost:5000/api/search?q=" ++ e }] := by
  have hne := trim_ne_nil_of_exists w.query h
  have hs := encodeURIComponent_isSome w.query
  rw [hwf] at hs
  obtain ⟨e, he⟩ := Option.isSome_iff_exists.mp hs
  exact ⟨e, he, by rw [handleSearch_sends w e hne he]; rfl⟩

/-- Witness of C2 (amended): `' miles davis '` is sent as `%20miles%20davis%20`. -/
theorem handleSearch_url_witness :
    ∃ e, encodeURIComponent (SearchPage.typed (utf16 " miles davis ")).query = some e ∧
      (SearchPage.handleSearch (SearchPage.typed (utf16 " miles davis "))).pending =
        (SearchPage.typed (utf16 " miles davis ")).pending ++
          [{ rid := (SearchPage.typed (utf16 " miles davis ")).issued,
             url := utf16 "http://localhost:5000/api/search?q=" ++ e }] :=
  handleSearch_url (SearchPage.typed (utf16 " miles davis ")) ⟨109, by decide, by decide⟩
    (by decide)

/-! ## Rendered trees -/

theorem byTagList_append (tag : String) (a b : List Node) :
    Node.byTagList tag (a ++ b) = Node.byTagList tag a ++ Node.byTagList tag b := by
  induction a with
  | nil => simp [Node.byTagList]
  | cons n a ih => simp [Node.byTagList, ih]

theorem textContentList_append (a b : List Node) :
    Node.textContentList (a ++ b) = Node.textContentList a ++ Node.textContentList b := by
  induction a with
  | nil => simp [Node.textContentList]
  | cons n a ih => simp [Node.textContentList, ih]

/-- A string or a number given as a JSX child renders as its text, and as no element. -/
theorem reactChild_text (v : JSValue) (h : v.isText = true) :
    ∃ ns, reactChild v = some ns ∧ (∀ tag, Node.byTagList tag ns = []) ∧
      Node.textContentList ns = v.toStr := by
  cases v with
  | str s =>
    by_cases hs : s = []
    · exact ⟨[], by simp [reactChild, hs], by simp [Node.byTagList],
        by simp [Node.textContentList, JSValue.toStr, hs]⟩
    · exact ⟨[Node.text s], by simp [reactChild, hs],
        by simp [Node.byTagList, Node.byTag],
        by simp [Node.textContentList, Node.textContent, JSValue.toStr]⟩
  | num n =>
    exact ⟨[Node.text (JSValue.num n).toStr], by simp [reactChild],
      by simp [Node.byTagList, Node.byTag],
      by simp [Node.textContentList, Node.textContent]⟩
  | undefined => simp [JSValue.isText] at h
  | null => simp [JSValue.isText] at h
  | bool b => simp [JSValue.isText] at h
  | arr xs => simp [JSValue.isText] at h
  | obj fs => simp [JSValue.isText] at h

theorem isText_of_isStr (v : JSValue) (h : v.isStr = true) : v.isText = true := by
  cases v <;> simp_all [JSValue.isStr, JSValue.isText]

/-! ## Search View: results -/

theorem card_of_summary (album : JSValue) (i : Nat) (h : isAlbumSummary album = true) :
    ∃ n, SearchPage.card album i = some n ∧
      (Node.byTag "Card" n).map SearchPage.cardFacts = [SearchPage.expectedFacts album] := by
  cases album with
  | obj fields =>
    simp only [isAlbumSummary, Bool.and_eq_true] at h
    obtain ⟨⟨⟨⟨hid, htitle⟩, hartist⟩, hyear⟩, _⟩ := h
    obtain ⟨tn, ht1, ht2, ht3⟩ := reactChild_text _ (isText_of_isStr _ htitle)
    obtain ⟨an, ha1, ha2, ha3⟩ := reactChild_text _ (isText_of_isStr _ hartist)
    obtain ⟨yn, hy1, hy2, hy3⟩ := reactChild_text _ hyear
    refine ⟨_, by simp only [SearchPage.card, JSValue.get, ht1, ha1, hy1]; rfl, ?_⟩
    simp [Node.byTag, Node.byTagList, byTagList_append, ht2, ha2, hy2, SearchPage.cardFacts,
      SearchPage.expectedFacts, Node.textContent, Node.textContentList, textContentList_append,
      ht3, ha3, hy3, Node.prop, JSValue.field, JSValue.get, List.lookup]
  | undefined => simp [isAlbumSummary] at h
  | null => simp [isAlbumSummary] at h
  | bool b => simp [isAlbumSummary] at h
  | num n => simp [isAlbumSummary] at h
  | str s => simp [isAlbumSummary] at h
  | arr xs => simp [isAlbumSummary] at h

theorem cards_of_summaries (xs : List JSValue) (h : ∀ x ∈ xs, isAlbumSummary x = true) :
    ∀ i, ∃ ns, mapFrom SearchPage.card i xs = some ns ∧
      (Node.byTagList "Card" ns).map SearchPage.cardFacts = xs.map SearchPage.expectedFacts := by
  induction xs with
  | nil => intro i; exact ⟨[], by simp [mapFrom], by simp [Node.byTagList]⟩
  | cons x xs ih =>
    intro i
    obtain ⟨n, hn1, hn2⟩ := card_of_summary x i (h x (List.mem_cons_self _ _))
    obtain ⟨ns, hns1, hns2⟩ := ih (fun y hy => h y (List.mem_cons_of_mem _ hy)) (i + 1)
    refine ⟨n :: ns, by simp [mapFrom, hn1, hns1], ?_⟩
    simp [Node.byTagList, hn2, hns2]

/-- C3: a successful search response whose payload is an array of N Album Summaries
replaces the whole result list with that array, whatever the list held before, and the view
then renders exactly N result cards, in the order of the response, the i-th showing the
i-th record's title and `artist - year` and linking to `/album/` followed by its id. -/
theorem settle_success_renders_cards (w : SearchPage.World) (rid : Nat) (xs : List JSValue)
    (h : ∀ x ∈ xs, isAlbumSummary x = true) :
    (SearchPage.settle w rid (some (JSValue.arr xs))).albums = JSValue.arr xs ∧
    ∃ tree, SearchPage.render (SearchPage.settle w rid (some (JSValue.arr xs))) = some tree ∧
      (tree.byTag "Card").length = xs.length ∧
      (tree.byTag "Card").map SearchPage.cardFacts = xs.map SearchPage.expectedFacts := by
  obtain ⟨ns, hns1, hns2⟩ := cards_of_summaries xs h 0
  have hfacts : ∀ tree : Node, (tree.byTag "Card").map SearchPage.cardFacts =
      xs.map SearchPage.expectedFacts → (tree.byTag "Card").length = xs.length := by
    intro tree ht
    have := congrArg List.length ht
    simpa using this
  refine ⟨rfl, _, by simp only [SearchPage.render, SearchPage.settle, jsMap, hns1]; rfl, ?_⟩
  have key : (Node.byTag "Card" (Node.elem "div" []
      [Node.elem "h1" [("className", JSValue.str (utf16 "mb-4"))]
        [Node.text (utf16 "Search Albums")],
       SearchPage.form (SearchPage.settle w rid (some (JSValue.arr xs))),
       Node.elem "Row"
        [("xs", JSValue.num 1), ("md", JSValue.num 2), ("lg", JSValue.num 3),
         ("className", JSValue.str (utf16 "g-4"))] ns])).map SearchPage.cardFacts =
      xs.map SearchPage.expectedFacts := by
    simp [Node.byTag, Node.byTagList, SearchPage.form, hns2]
  exact ⟨hfacts _ key, key⟩

/-- Witness of C3: the response `[{id:1,title:'Kind of Blue',artist:'Miles Davis',year:1959,
thumb:null}]` arriving at a view that showed something else renders one card, titled
`Kind of Blue`, with the text `Miles Davis - 1959`, linking to `/album/1`. -/
theorem settle_success_renders_cards_witness :
    (∀ x ∈ [kindOfBlueSummary], isAlbumSummary x = true) ∧
    SearchPage.expectedFacts kindOfBlueSummary =
      ([utf16 "Kind of Blue"], [utf16 "Miles Davis - 1959"],
       [JSValue.str (utf16 "/album/1")]) ∧
    ∃ tree, SearchPage.render (SearchPage.settle
        { SearchPage.init with albums := JSValue.arr [JSValue.null], loading := true } 0
        (some (JSValue.arr [kindOfBlueSummary]))) = some tree ∧
      (tree.byTag "Card").length = 1 ∧
      (tree.byTag "Card").map SearchPage.cardFacts =
        [SearchPage.expectedFacts kindOfBlueSummary] :=
  ⟨by simp [kindOfBlueSummary, isAlbumSummary, List.lookup, JSValue.isText, JSValue.isStr,
      JSValue.isOptStr], rfl,
   (settle_success_renders_cards
      { SearchPage.init with albums := JSValue.arr [JSValue.null], loading := true } 0
      [kindOfBlueSummary]
      (by simp [kindOfBlueSummary, isAlbumSummary, List.lookup, JSValue.isText, JSValue.isStr,
        JSValue.isOptStr])).2⟩

/-! ## Search View: the busy indicator -/

theorem SearchPage.inv_step (w w2 : SearchPage.World) (e : SearchPage.Event)
    (hi : SearchPage.Inv w) (hs : SearchPage.step w e = some w2) : SearchPage.Inv w2 := by
  cases e with
  | change value =>
    simp only [SearchPage.step, Option.some.injEq] at hs
    subst hs
    exact hi
  | submit =>
    by_cases hl : w.loading = true
    · simp [SearchPage.step, hl] at hs
    · simp only [SearchPage.step, hl, Bool.false_eq_true, if_false, Option.some.injEq] at hs
      have hp : w.pending = [] := by
        rcases hi with ⟨hp, _⟩ | ⟨r, _, hr⟩
        · exact hp
        · exact absurd hr hl
      subst hs
      unfold SearchPage.handleSearch
      split
      · left; exact ⟨hp, by simpa using hl⟩
      · split
        · left; exact ⟨hp, rfl⟩
        · right; exact ⟨_, by rw [hp]; rfl, rfl⟩
  | settle rid outcome =>
    by_cases ha : w.pending.any (fun r => r.rid == rid) = true
    · simp only [SearchPage.step, ha, if_true, Option.some.injEq] at hs
      subst hs
      left
      rcases hi with ⟨hp, _⟩ | ⟨r, hp, _⟩
      · cases outcome <;> simp [SearchPage.settle, hp]
      · have hr : r.rid = rid := by simpa [hp] using ha
        cases outcome <;> simp [SearchPage.settle, hp, hr]
    · simp [SearchPage.step, ha] at hs

theorem SearchPage.inv_run (evs : List SearchPage.Event) :
    ∀ w w2 : SearchPage.World, SearchPage.Inv w → SearchPage.run w evs = some w2 →
      SearchPage.Inv w2 := by
  induction evs with
  | nil =>
    intro w w2 hi hr
    simp only [SearchPage.run, Option.some.injEq] at hr
    subst hr
    exact hi
  | cons e evs ih =>
    intro w w2 hi hr
    simp only [SearchPage.run] at hr
    cases hs : SearchPage.step w e with
    | none => simp [hs] at hr
    | some w1 =>
      simp only [hs] at hr
      exact ih w1 w2 (SearchPage.inv_step w w1 e hi hs) hr

theorem SearchPage.run_edits (texts : List JSString) :
    ∀ w : SearchPage.World, SearchPage.run w (SearchPage.edits texts) =
      some { w with query := (texts.getLast?).getD w.query } := by
  induction texts with
  | nil => intro w; rfl
  | cons t ts ih =>
    intro w
    simp only [SearchPage.edits, List.map_cons, SearchPage.run, SearchPage.step]
    have := ih { w with query := t }
    simp only [SearchPage.edits] at this
    rw [this]
    cases ts with
    | nil => rfl
    | cons t2 ts2 =>
      rw [List.getLast?_eq_getLast _ (List.cons_ne_nil t2 ts2)]
      rfl

theorem SearchPage.submitButton_eq (w : SearchPage.World) :
    SearchPage.submitButton w =
      [(JSValue.bool w.loading, if w.loading then utf16 "Searching..." else utf16 "Search")] := by
  simp [SearchPage.submitButton, SearchPage.form, Node.byTag, Node.byTagList, Node.prop,
    Node.textContent, Node.textContentList, List.lookup]

/-- C4: a submission of a non-blank query (possible only while the view is idle) issues its
request and turns `loading` on (button disabled, label `Searching...`); `loading` stays on
until that request settles, whatever the user types meanwhile, and no other submission or
settlement can happen in between; when the request settles, with success or with failure,
`loading` is off (button enabled, label `Search`); when it settles with failure the albums
list is what it was before the submission and the query text is untouched by the submission
(it is what it was before, or what the user typed last while waiting). -/
theorem search_busy_until_settled (evs : List SearchPage.Event) (w : SearchPage.World)
    (hreach : SearchPage.run SearchPage.init evs = some w) (hidle : w.loading = false)
    (hq : ∃ c ∈ w.query, isWhiteSpace c = false) (hwf : isWellFormed w.query = true)
    (texts : List JSString) :
    ∃ url w1 w2,
      SearchPage.step w SearchPage.Event.submit = some w1 ∧
      w1.pending = [{ rid := w.issued, url := url }] ∧ w1.loading = true ∧
      w1.albums = w.albums ∧ w1.query = w.query ∧
      SearchPage.submitButton w1 = [(JSValue.bool true, utf16 "Searching...")] ∧
      SearchPage.run w1 (SearchPage.edits texts) = some w2 ∧
      w2.pending = [{ rid := w.issued, url := url }] ∧ w2.loading = true ∧
      SearchPage.submitButton w2 = [(JSValue.bool true, utf16 "Searching...")] ∧
      SearchPage.step w2 SearchPage.Event.submit = none ∧
      (∀ rid outcome, rid ≠ w.issued →
        SearchPage.step w2 (SearchPage.Event.settle rid outcome) = none) ∧
      (∀ outcome, ∃ w3,
        SearchPage.step w2 (SearchPage.Event.settle w.issued outcome) = some w3 ∧
        w3.loading = false ∧ w3.pending = [] ∧
        SearchPage.submitButton w3 = [(JSValue.bool false, utf16 "Search")] ∧
        (outcome = none → w3.albums = w.albums ∧ w3.query = w2.query ∧
          w3.query = (texts.getLast?).getD w.query)) := by
  have hinv : SearchPage.Inv w :=
    SearchPage.inv_run evs SearchPage.init w (Or.inl ⟨rfl, rfl⟩) hreach
  have hp : w.pending = [] := by
    rcases hinv with ⟨hp, _⟩ | ⟨r, _, hl⟩
    · exact hp
    · rw [hidle] at hl; cases hl
  have hne := trim_ne_nil_of_exists w.query hq
  have hs := encodeURIComponent_isSome w.query
  rw [hwf] at hs
  obtain ⟨e, he⟩ := Option.isSome_iff_exists.mp hs
  have hw1 := handleSearch_sends w e hne he
  refine ⟨SearchPage.searchUrl e, SearchPage.handleSearch w,
    { SearchPage.handleSearch w with query := (texts.getLast?).getD w.query }, ?_⟩
  have hq1 : (SearchPage.handleSearch w).query = w.query := by rw [hw1]
  refine ⟨by simp [SearchPage.step, hidle], by rw [hw1]; simp [hp], by rw [hw1],
    by rw [hw1], hq1, by rw [SearchPage.submitButton_eq, hw1]; rfl,
    by rw [SearchPage.run_edits, hq1], by rw [hw1]; simp [hp], by rw [hw1],
    by rw [SearchPage.submitButton_eq, hw1]; rfl, by rw [hw1]; simp [SearchPage.step], ?_, ?_⟩
  · intro rid outcome hrid
    rw [hw1]
    simp [SearchPage.step, hp, Ne.symm hrid]
  · intro outcome
    refine ⟨SearchPage.settle
      { SearchPage.handleSearch w with query := (texts.getLast?).getD w.query } w.issued outcome,
      by rw [hw1]; simp [SearchPage.step, hp], ?_⟩
    cases outcome with
    | none =>
      refine ⟨rfl, by rw [hw1]; simp [SearchPage.settle, hp], ?_, ?_⟩
      · rw [SearchPage.submitButton_eq]; rfl
      · intro _
        exact ⟨by rw [hw1]; rfl, rfl, rfl⟩
    | some data =>
      refine ⟨rfl, by rw [hw1]; simp [SearchPage.settle, hp], ?_, ?_⟩
      · rw [SearchPage.submitButton_eq]; rfl
      · intro h; cases h

/-- Witness of C4: the user types `miles davis` and submits, then retypes `miles` while the
request is in flight. -/
theorem search_busy_until_settled_witness :
    SearchPage.run SearchPage.init [SearchPage.Event.change (utf16 "miles davis")] =
      some (SearchPage.typed (utf16 "miles davis")) ∧
    ∃ url w1 w2,
      SearchPage.step (SearchPage.typed (utf16 "miles davis")) SearchPage.Event.submit =
        some w1 ∧
      w1.pending = [{ rid := (SearchPage.typed (utf16 "miles davis")).issued, url := url }] ∧
      w1.loading = true ∧
      w1.albums = (SearchPage.typed (utf16 "miles davis")).albums ∧
      w1.query = (SearchPage.typed (utf16 "miles davis")).query ∧
      SearchPage.submitButton w1 = [(JSValue.bool true, utf16 "Searching...")] ∧
      SearchPage.run w1 (SearchPage.edits [utf16 "miles"]) = some w2 ∧
      w2.pending = [{ rid := (SearchPage.typed (utf16 "miles davis")).issued, url := url }] ∧
      w2.loading = true ∧
      SearchPage.submitButton w2 = [(JSValue.bool true, utf16 "Searching...")] ∧
      SearchPage.step w2 SearchPage.Event.submit = none ∧
      (∀ rid outcome, rid ≠ (SearchPage.typed (utf16 "miles davis")).issued →
        SearchPage.step w2 (SearchPage.Event.settle rid outcome) = none) ∧
      (∀ outcome, ∃ w3,
        SearchPage.step w2 (SearchPage.Event.settle
          (SearchPage.typed (utf16 "miles davis")).issued outcome) = some w3 ∧
        w3.loading = false ∧ w3.pending = [] ∧
        SearchPage.submitButton w3 = [(JSValue.bool false, utf16 "Search")] ∧
        (outcome = none → w3.albums = (SearchPage.typed (utf16 "miles davis")).albums ∧
          w3.query = w2.query ∧
          w3.query = ([utf16 "miles"].getLast?).getD
            (SearchPage.typed (utf16 "miles davis")).query)) :=
  ⟨rfl, search_busy_until_settled [SearchPage.Event.change (utf16 "miles davis")]
    (SearchPage.typed (utf16 "miles davis")) rfl rfl ⟨109, by decide, by decide⟩ (by decide)
    [utf16 "miles"]⟩

/-! ## Detail View: the loaded card of an Album Detail -/

theorem badge_of_str (bg : String) (label : JSValue) (i : Nat) (h : label.isStr = true) :
    ∃ n, AlbumDetails.badge bg label i = some n ∧
      (Node.byTag "Badge" n).map (fun b => (b.prop "bg", b.textContent)) =
        [(JSValue.str (utf16 bg), label.toStr)] ∧
      (∀ tag, tag ≠ "Badge" → Node.byTag tag n = []) := by
  obtain ⟨ns, h1, h2, h3⟩ := reactChild_text label (isText_of_isStr label h)
  refine ⟨_, by simp only [AlbumDetails.badge, h1]; rfl, ?_, ?_⟩
  · simp [Node.byTag, h2, Node.prop, List.lookup, Node.textContent, h3]
  · intro tag htag
    have hne : ¬ "Badge" = tag := fun e => htag e.symm
    simp [Node.byTag, h2, hne]

theorem badges_of_strs (bg : String) (xs : List JSValue) (h : ∀ x ∈ xs, x.isStr = true) :
    ∀ i, ∃ ns, mapFrom (AlbumDetails.badge bg) i xs = some ns ∧
      (Node.byTagList "Badge" ns).map (fun b => (b.prop "bg", b.textContent)) =
        xs.map (fun x => (JSValue.str (utf16 bg), x.toStr)) ∧
      (∀ tag, tag ≠ "Badge" → Node.byTagList tag ns = []) := by
  induction xs with
  | nil => intro i; exact ⟨[], by simp [mapFrom], by simp [Node.byTagList],
      by simp [Node.byTagList]⟩
  | cons x xs ih =>
    intro i
    obtain ⟨n, hn1, hn2, hn3⟩ := badge_of_str bg x i (h x (List.mem_cons_self _ _))
    obtain ⟨ns, hns1, hns2, hns3⟩ := ih (fun y hy => h y (List.mem_cons_of_mem _ hy)) (i + 1)
    exact ⟨n :: ns, by simp [mapFrom, hn1, hns1], by simp [Node.byTagList, hn2, hns2],
      fun tag htag => by simp [Node.byTagList, hn3 tag htag, hns3 tag htag]⟩

theorem utf16_paren : utf16 "(" = [0x28] ∧ utf16 ")" = [0x29] := ⟨rfl, rfl⟩

/-- The child `track.duration && ...` of a track renders as `(duration)` when the track has
a duration and as nothing otherwise. -/
theorem durationChild_text (track : JSValue) (fields : List (String × JSValue))
    (ht : track = JSValue.obj fields)
    (h : ((fields.lookup "duration").getD JSValue.undefined).isOptStr = true) :
    ∃ ns, reactChild (AlbumDetails.durationChild
        ((fields.lookup "duration").getD JSValue.undefined)) = some ns ∧
      (∀ tag, Node.byTagList tag ns = []) ∧
      Node.textContentList ns =
        (if hasDuration track then
          utf16 "(" ++ (track.field "duration").toStr ++ utf16 ")" else []) := by
  subst ht
  simp only [hasDuration, JSValue.field, JSValue.get, Option.getD_some]
  generalize (fields.lookup "duration").getD JSValue.undefined = d at h ⊢
  cases d with
  | str s =>
    by_cases hs : s = []
    · exact ⟨[], by simp [AlbumDetails.durationChild, JSValue.and, JSValue.truthy, hs,
        reactChild], by simp [Node.byTagList], by simp [Node.textContentList, hs]⟩
    · refine ⟨[Node.text (utf16 "(" ++ s ++ utf16 ")")], ?_, ?_, ?_⟩
      · simp [AlbumDetails.durationChild, JSValue.and, JSValue.truthy, hs, reactChild,
          JSValue.toStr, utf16_paren]
      · simp [Node.byTagList, Node.byTag]
      · simp [Node.textContentList, Node.textContent, hs, JSValue.toStr]
  | null =>
    exact ⟨[], by simp [AlbumDetails.durationChild, JSValue.and, JSValue.truthy, reactChild],
      by simp [Node.byTagList], by simp [Node.textContentList]⟩
  | undefined =>
    exact ⟨[], by simp [AlbumDetails.durationChild, JSValue.and, JSValue.truthy, reactChild],
      by simp [Node.byTagList], by simp [Node.textContentList]⟩
  | bool b => simp [JSValue.isOptStr] at h
  | num n => simp [JSValue.isOptStr] at h
  | arr xs => simp [JSValue.isOptStr] at h
  | obj fs => simp [JSValue.isOptStr] at h

theorem trackItem_of_track (track : JSValue) (i : Nat) (h : isTrack track = true) :
    ∃ n, AlbumDetails.trackItem track i = some n ∧
      (Node.byTag "ListGroup.Item" n).map Node.textContent = [trackLine track] ∧
      (∀ tag, tag ≠ "ListGroup.Item" → Node.byTag tag n = []) := by
  cases track with
  | obj fields =>
    simp only [isTrack, Bool.and_eq_true] at h
    obtain ⟨⟨hpos, htitle⟩, hdur⟩ := h
    obtain ⟨pn, hp1, hp2, hp3⟩ := reactChild_text _ (isText_of_isStr _ hpos)
    obtain ⟨tn, ht1, ht2, ht3⟩ := reactChild_text _ (isText_of_isStr _ htitle)
    obtain ⟨dn, hd1, hd2, hd3⟩ := durationChild_text (JSValue.obj fields) fields rfl hdur
    refine ⟨_, by simp only [AlbumDetails.trackItem, JSValue.get, hp1, ht1, hd1]; rfl, ?_, ?_⟩
    · simp [Node.byTag, Node.byTagList, byTagList_append, hp2, ht2, hd2, Node.textContent,
        Node.textContentList, textContentList_append, hp3, ht3, hd3, trackLine, JSValue.field,
        JSValue.get]
    · intro tag htag
      have hne : ¬ "ListGroup.Item" = tag := fun e => htag e.symm
      simp [Node.byTag, Node.byTagList, byTagList_append, hp2, ht2, hd2, hne]
  | undefined => simp [isTrack] at h
  | null => simp [isTrack] at h
  | bool b => simp [isTrack] at h
  | num n => simp [isTrack] at h
  | str s => simp [isTrack] at h
  | arr xs => simp [isTrack] at h

theorem trackItems_of_tracks (xs : List JSValue) (h : ∀ x ∈ xs, isTrack x = true) :
    ∀ i, ∃ ns, mapFrom AlbumDetails.trackItem i xs = some ns ∧
      (Node.byTagList "ListGroup.Item" ns).map Node.textContent = xs.map trackLine ∧
      (∀ tag, tag ≠ "ListGroup.Item" → Node.byTagList tag ns = []) := by
  induction xs with
  | nil => intro i; exact ⟨[], by simp [mapFrom], by simp [Node.byTagList],
      by simp [Node.byTagList]⟩
  | cons x xs ih =>
    intro i
    obtain ⟨n, hn1, hn2, hn3⟩ := trackItem_of_track x i (h x (List.mem_cons_self _ _))
    obtain ⟨ns, hns1, hns2, hns3⟩ := ih (fun y hy => h y (List.mem_cons_of_mem _ hy)) (i + 1)
    exact ⟨n :: ns, by simp [mapFrom, hn1, hns1], by simp [Node.byTagList, hn2, hns2],
      fun tag htag => by simp [Node.byTagList, hn3 tag htag, hns3 tag htag]⟩

theorem isStrList_items (v : JSValue) (h : isStrList v = true) :
    v = JSValue.arr v.items ∧ ∀ x ∈ v.items, x.isStr = true := by
  cases v <;> simp_all [isStrList, JSValue.items]

theorem isTrackList_items (v : JSValue) (h : isTrackList v = true) :
    v = JSValue.arr v.items ∧ ∀ x ∈ v.items, isTrack x = true := by
  cases v <;> simp_all [isTrackList, JSValue.items]

theorem loadedView_of_detail (album : JSValue) (h : isAlbumDetail album = true) :
    album.truthy = true ∧
    ∃ tree, AlbumDetails.loadedView album = some tree ∧
      AlbumDetails.badgeFacts tree =
        (album.field "genres").items.map (fun g => (JSValue.str (utf16 "primary"), g.toStr)) ++
        (album.field "styles").items.map (fun s => (JSValue.str (utf16 "secondary"), s.toStr)) ∧
      AlbumDetails.trackLines tree = (album.field "tracklist").items.map trackLine ∧
      AlbumDetails.headerFacts tree = AlbumDetails.expectedHeader album := by
  cases album with
  | obj fields =>
    simp only [isAlbumDetail, Bool.and_eq_true] at h
    obtain ⟨⟨⟨⟨⟨⟨htitle, hartist⟩, hyear⟩, _⟩, hgenres⟩, hstyles⟩, htracks⟩ := h
    obtain ⟨tn, ht1, ht2, ht3⟩ := reactChild_text _ (isText_of_isStr _ htitle)
    obtain ⟨an, ha1, ha2, ha3⟩ := reactChild_text _ (isText_of_isStr _ hartist)
    obtain ⟨yn, hy1, hy2, hy3⟩ := reactChild_text _ hyear
    obtain ⟨hge, hgs⟩ := isStrList_items _ hgenres
    obtain ⟨hse, hss⟩ := isStrList_items _ hstyles
    obtain ⟨hte, hts⟩ := isTrackList_items _ htracks
    obtain ⟨gb, hg1, hg2, hg3⟩ := badges_of_strs "primary" _ hgs 0
    obtain ⟨sb, hs1, hs2, hs3⟩ := badges_of_strs "secondary" _ hss 0
    obtain ⟨ti, hi1, hi2, hi3⟩ := trackItems_of_tracks _ hts 0
    have jg : jsMap ((fields.lookup "genres").getD JSValue.undefined)
        (AlbumDetails.badge "primary") = some gb := by
      rw [hge]; exact hg1
    have js : jsMap ((fields.lookup "styles").getD JSValue.undefined)
        (AlbumDetails.badge "secondary") = some sb := by
      rw [hse]; exact hs1
    have jt : jsMap ((fields.lookup "tracklist").getD JSValue.undefined)
        AlbumDetails.trackItem = some ti := by
      rw [hte]; exact hi1
    have hview := AlbumDetails.loadedView.eq_1 (JSValue.obj fields)
    simp only [JSValue.get, jg, js, jt, ht1, ha1, hy1] at hview
    refine ⟨rfl, _, hview, ?_, ?_, ?_⟩
    · simp [AlbumDetails.badgeFacts, Node.byTag, Node.byTagList, byTagList_append, ht2, ha2,
        hy2, hg2, hs2, hi3 "Badge" (by decide), JSValue.field, JSValue.get]
    · simp [AlbumDetails.trackLines, Node.byTag, Node.byTagList, byTagList_append, ht2, ha2,
        hy2, hg3 "ListGroup.Item" (by decide), hs3 "ListGroup.Item" (by decide), hi2,
        JSValue.field, JSValue.get]
    · simp [AlbumDetails.headerFacts, AlbumDetails.expectedHeader, Node.byTag, Node.byTagList,
        byTagList_append, ht2, ha2, hy2, hg3 "h2" (by decide), hs3 "h2" (by decide),
        hi3 "h2" (by decide), hg3 "h4" (by decide), hs3 "h4" (by decide),
        hi3 "h4" (by decide), hg3 "Card" (by decide), hs3 "Card" (by decide),
        hi3 "Card" (by decide), Node.textContent, Node.textContentList,
        textContentList_append, ht3, ha3, hy3, JSValue.field, JSValue.get]
  | undefined => simp [isAlbumDetail] at h
  | null => simp [isAlbumDetail] at h
  | bool b => simp [isAlbumDetail] at h
  | num n => simp [isAlbumDetail] at h
  | str s => simp [isAlbumDetail] at h
  | arr xs => simp [isAlbumDetail] at h

/-! ## Detail View: render states -/

/-- C5, as stated, fails: rendering is not total. At `/album/1` a request settles
successfully with the text `<html>` as payload, which is truthy; the view is then neither
loading nor `Album not found`, and the loaded branch throws (`album.genres` is undefined, so
`album.genres.map` is a `TypeError`): no loaded card is rendered. -/
theorem truthy_text_payload_throws :
    htmlPayload.truthy = true ∧
    AlbumDetails.run (AlbumDetails.mount (utf16 "1"))
        [AlbumDetails.Event.settle 0 (some htmlPayload)] =
      some (AlbumDetails.settle (AlbumDetails.mount (utf16 "1")) 0 (some htmlPayload)) ∧
    (AlbumDetails.settle (AlbumDetails.mount (utf16 "1")) 0 (some htmlPayload)).loading =
      false ∧
    (AlbumDetails.settle (AlbumDetails.mount (utf16 "1")) 0 (some htmlPayload)).album =
      htmlPayload ∧
    AlbumDetails.render
      (AlbumDetails.settle (AlbumDetails.mount (utf16 "1")) 0 (some htmlPayload)) = none :=
  ⟨rfl, rfl, rfl, rfl, rfl⟩

/-- C5 (amended): what `AlbumDetails` renders is decided by `loading` and `album` alone, in
three ways: `Loading...` while `loading`; otherwise `Album not found` when `album` is falsy
(`null`, absent, or any other falsy payload); otherwise the loaded branch, which renders the
loaded card (one card, headed by the title and `artist - year`) when `album` is a
fully-formed Album Detail. Payloads are not validated, so the loaded branch is not total.
When a request settles successfully with a falsy payload the view renders `Album not found`,
and rendering returns (it does not throw). -/
theorem render_three_states (w : AlbumDetails.World) :
    AlbumDetails.loadingView.textContent = utf16 "Loading..." ∧
    AlbumDetails.notFoundView.textContent = utf16 "Album not found" ∧
    (w.loading = true → AlbumDetails.render w = some AlbumDetails.loadingView) ∧
    (w.loading = false → w.album.truthy = false →
      AlbumDetails.render w = some AlbumDetails.notFoundView) ∧
    (w.loading = false → w.album.truthy = true →
      AlbumDetails.render w = AlbumDetails.loadedView w.album) ∧
    (w.loading = false → isAlbumDetail w.album = true →
      ∃ tree, AlbumDetails.render w = some tree ∧
        AlbumDetails.headerFacts tree = AlbumDetails.expectedHeader w.album) ∧
    (∀ rid data, data.truthy = false →
      AlbumDetails.render (AlbumDetails.settle w rid (some data)) =
        some AlbumDetails.notFoundView) := by
  refine ⟨rfl, rfl, ?_, ?_, ?_, ?_, ?_⟩
  · intro h
    simp [AlbumDetails.render, h]
  · intro h1 h2
    simp [AlbumDetails.render, h1, h2]
  · intro h1 h2
    simp [AlbumDetails.render, h1, h2]
  · intro h1 h2
    obtain ⟨htr, tree, ht, _, _, hh⟩ := loadedView_of_detail w.album h2
    exact ⟨tree, by simp [AlbumDetails.render, h1, htr, ht], hh⟩
  · intro rid data h
    simp [AlbumDetails.render, AlbumDetails.settle, h]

/-- Witness of C5 (amended): the view at `/album/1` while loading, after a failed request,
after the payload of the spec's scenario (one card headed `Kind of Blue` and
`Miles Davis - 1959`), and after a `null` and an empty payload. -/
theorem render_three_states_witness :
    AlbumDetails.render (AlbumDetails.mount (utf16 "1")) = some AlbumDetails.loadingView ∧
    AlbumDetails.render (AlbumDetails.settle (AlbumDetails.mount (utf16 "1")) 0 none) =
      some AlbumDetails.notFoundView ∧
    AlbumDetails.render
        (AlbumDetails.settle (AlbumDetails.mount (utf16 "1")) 0 (some kindOfBlueDetail)) =
      AlbumDetails.loadedView kindOfBlueDetail ∧
    AlbumDetails.expectedHeader kindOfBlueDetail =
      ([utf16 "Kind of Blue"], [utf16 "Miles Davis - 1959"], 1) ∧
    (∃ tree, AlbumDetails.render
        (AlbumDetails.settle (AlbumDetails.mount (utf16 "1")) 0 (some kindOfBlueDetail)) =
          some tree ∧
      AlbumDetails.headerFacts tree = AlbumDetails.expectedHeader
        (AlbumDetails.settle (AlbumDetails.mount (utf16 "1")) 0
          (some kindOfBlueDetail)).album) ∧
    AlbumDetails.render
        (AlbumDetails.settle (AlbumDetails.mount (utf16 "1")) 0 (some JSValue.null)) =
      some AlbumDetails.notFoundView ∧
    AlbumDetails.render
        (AlbumDetails.settle (AlbumDetails.mount (utf16 "1")) 0
          (some (JSValue.str (utf16 "")))) =
      some AlbumDetails.notFoundView :=
  ⟨(render_three_states (AlbumDetails.mount (utf16 "1"))).2.2.1 rfl,
   (render_three_states (AlbumDetails.settle (AlbumDetails.mount (utf16 "1")) 0 none)).2.2.2.1
     rfl rfl,
   (render_three_states
     (AlbumDetails.settle (AlbumDetails.mount (utf16 "1")) 0 (some kindOfBlueDetail))).2.2.2.2.1
     rfl rfl,
   rfl,
   (render_three_states
     (AlbumDetails.settle (AlbumDetails.mount (utf16 "1")) 0
       (some kindOfBlueDetail))).2.2.2.2.2.1 rfl rfl,
   (render_three_states (AlbumDetails.mount (utf16 "1"))).2.2.2.2.2.2 0 JSValue.null rfl,
   (render_three_states (AlbumDetails.mount (utf16 "1"))).2.2.2.2.2.2 0
     (JSValue.str (utf16 "")) rfl⟩

/-! ## Detail View: failed requests -/

/-- C6, as stated, fails: `/album/1` loads Kind of Blue, the route changes to `/album/2`, and
the request for 2 settles with an error; the view then shows the card of Kind of Blue, not
`Album not found`, which is what it shows when that request settles with a `null` payload. -/
theorem fetch_error_after_success_shows_old_album :
    (AlbumDetails.run (AlbumDetails.mount (utf16 "1"))
      [AlbumDetails.Event.settle 0 (some kindOfBlueDetail),
       AlbumDetails.Event.navigate (utf16 "2"),
       AlbumDetails.Event.settle 1 none]).map AlbumDetails.observe =
      some (utf16 "2", [], false, some (utf16
        "Kind of BlueMiles Davis - 1959Genres:JazzStyles:ModalTracklist:A1. So What (9:22)")) ∧
    (AlbumDetails.run (AlbumDetails.mount (utf16 "1"))
      [AlbumDetails.Event.settle 0 (some kindOfBlueDetail),
       AlbumDetails.Event.navigate (utf16 "2"),
       AlbumDetails.Event.settle 1 (some JSValue.null)]).map AlbumDetails.observe =
      some (utf16 "2", [], false, some (utf16 "Album not found")) :=
  ⟨rfl, rfl⟩

/-- C6 (amended): a fetch error clears `loading` and leaves the stored album as it is,
whatever it is (a stored Album Detail stays displayed). Once a request settles with an error
while no album is stored (as when it is the first request to settle after first display),
the view renders `Album not found`, exactly what it renders when that request settles with a
`null` payload. -/
theorem fetch_error_keeps_album_else_not_found (w : AlbumDetails.World) (rid : Nat) :
    (AlbumDetails.settle w rid none).album = w.album ∧
    (AlbumDetails.settle w rid none).id = w.id ∧
    (AlbumDetails.settle w rid none).loading = false ∧
    (AlbumDetails.settle w rid none).pending = w.pending.filter (fun r => r.rid != rid) ∧
    (w.album.truthy = false →
      AlbumDetails.render (AlbumDetails.settle w rid none) =
        some AlbumDetails.notFoundView ∧
      AlbumDetails.render (AlbumDetails.settle w rid none) =
        AlbumDetails.render (AlbumDetails.settle w rid (some JSValue.null))) ∧
    (isAlbumDetail w.album = true →
      ∃ tree, AlbumDetails.render (AlbumDetails.settle w rid none) = some tree ∧
        AlbumDetails.headerFacts tree = AlbumDetails.expectedHeader w.album) := by
  refine ⟨rfl, rfl, rfl, rfl, ?_, ?_⟩
  · intro h
    have h2 : AlbumDetails.render (AlbumDetails.settle w rid (some JSValue.null)) =
        some AlbumDetails.notFoundView := rfl
    rw [h2]
    simp [AlbumDetails.render, AlbumDetails.settle, h]
  · intro h
    obtain ⟨htr, tree, ht, _, _, hh⟩ := loadedView_of_detail w.album h
    exact ⟨tree, by simp [AlbumDetails.render, AlbumDetails.settle, htr, ht], hh⟩

/-- Witness of C6 (amended): the first request of `/album/1` fails and the view shows
`Album not found`; and after Kind of Blue was loaded and the route changed to `/album/2`,
the failure of the second request leaves Kind of Blue stored and displayed. -/
theorem fetch_error_keeps_album_else_not_found_witness :
    AlbumDetails.step (AlbumDetails.mount (utf16 "1")) (AlbumDetails.Event.settle 0 none) =
      some (AlbumDetails.settle (AlbumDetails.mount (utf16 "1")) 0 none) ∧
    (AlbumDetails.render (AlbumDetails.settle (AlbumDetails.mount (utf16 "1")) 0 none) =
        some AlbumDetails.notFoundView ∧
      AlbumDetails.render (AlbumDetails.settle (AlbumDetails.mount (utf16 "1")) 0 none) =
        AlbumDetails.render
          (AlbumDetails.settle (AlbumDetails.mount (utf16 "1")) 0 (some JSValue.null))) ∧
    (AlbumDetails.settle
        (AlbumDetails.navigate
          (AlbumDetails.settle (AlbumDetails.mount (utf16 "1")) 0 (some kindOfBlueDetail))
          (utf16 "2")) 1 none).album = kindOfBlueDetail ∧
    (∃ tree, AlbumDetails.render (AlbumDetails.settle
        (AlbumDetails.navigate
          (AlbumDetails.settle (AlbumDetails.mount (utf16 "1")) 0 (some kindOfBlueDetail))
          (utf16 "2")) 1 none) = some tree ∧
      AlbumDetails.headerFacts tree = AlbumDetails.expectedHeader
        (AlbumDetails.navigate
          (AlbumDetails.settle (AlbumDetails.mount (utf16 "1")) 0 (some kindOfBlueDetail))
          (utf16 "2")).album) :=
  ⟨rfl,
   (fetch_error_keeps_album_else_not_found (AlbumDetails.mount (utf16 "1")) 0).2.2.2.2.1 rfl,
   (fetch_error_keeps_album_else_not_found
      (AlbumDetails.navigate
        (AlbumDetails.settle (AlbumDetails.mount (utf16 "1")) 0 (some kindOfBlueDetail))
        (utf16 "2")) 1).1,
   (fetch_error_keeps_album_else_not_found
      (AlbumDetails.navigate
        (AlbumDetails.settle (AlbumDetails.mount (utf16 "1")) 0 (some kindOfBlueDetail))
        (utf16 "2")) 1).2.2.2.2.2 rfl⟩

/-! ## Detail View: requests and the loading indicator -/

theorem AlbumDetails.run_navigations (ids : List JSString) :
    ∀ w : AlbumDetails.World, w.loading = true →
      ∃ w2, AlbumDetails.run w (AlbumDetails.navigations ids) = some w2 ∧
        w2.loading = true := by
  induction ids with
  | nil => intro w h; exact ⟨w, rfl, h⟩
  | cons i ids ih =>
    intro w h
    have hl : (AlbumDetails.navigate w i).loading = true := by
      unfold AlbumDetails.navigate
      split
      · exact h
      · exact h
    obtain ⟨w2, h1, h2⟩ := ih (AlbumDetails.navigate w i) hl
    exact ⟨w2, by simpa [AlbumDetails.navigations, AlbumDetails.run, AlbumDetails.step]
      using h1, h2⟩

/-- C7, as stated, fails: `/album/1` is displayed, the route changes to `/album/2` while the
first request is in flight, and the first request settles; the request for the current id 2
is then still in flight, yet the view renders `Album not found`, not `Loading...`. -/
theorem request_in_flight_without_loading :
    (AlbumDetails.run (AlbumDetails.mount (utf16 "1"))
      [AlbumDetails.Event.navigate (utf16 "2"),
       AlbumDetails.Event.settle 0 (some JSValue.null)]).map AlbumDetails.observe =
      some (utf16 "2", [{ rid := 1, url := utf16 "http://localhost:5000/api/album/2" }],
        false, some (utf16 "Album not found")) := by
  decide

/-- C7 (amended): on first display, and on every change of the identifier while mounted,
`AlbumDetails` issues exactly one GET request, to `http://localhost:5000/api/album/<id>` for
the new identifier (and none when the identifier stays the same); it shows `Loading...` from
first display until the first of its requests settles: however the identifier changes
before that, the view renders the loading state. -/
theorem detail_request_per_id_and_initial_loading (id : JSString) (ids : List JSString)
    (v : AlbumDetails.World) (id2 : JSString) (hne : id2 ≠ v.id) :
    (AlbumDetails.mount id).pending =
      [{ rid := 0, url := utf16 "http://localhost:5000/api/album/" ++ id }] ∧
    (AlbumDetails.navigate v id2).pending =
      v.pending ++ [{ rid := v.issued, url := utf16 "http://localhost:5000/api/album/" ++ id2 }] ∧
    (AlbumDetails.navigate v id2).id = id2 ∧
    AlbumDetails.navigate v v.id = v ∧
    ∃ w, AlbumDetails.run (AlbumDetails.mount id) (AlbumDetails.navigations ids) = some w ∧
      AlbumDetails.render w = some AlbumDetails.loadingView := by
  refine ⟨rfl, ?_, ?_, ?_, ?_⟩
  · simp [AlbumDetails.navigate, hne, AlbumDetails.fetchAlbumDetails, AlbumDetails.albumUrl]
  · simp [AlbumDetails.navigate, hne, AlbumDetails.fetchAlbumDetails]
  · simp [AlbumDetails.navigate]
  · obtain ⟨w, h1, h2⟩ := AlbumDetails.run_navigations ids (AlbumDetails.mount id) rfl
    exact ⟨w, h1, by simp [AlbumDetails.render, h2]⟩

/-- Witness of C7 (amended): `/album/1` is displayed and the route changes to `/album/2`. -/
theorem detail_request_per_id_and_initial_loading_witness :
    (AlbumDetails.mount (utf16 "1")).pending =
      [{ rid := 0, url := utf16 "http://localhost:5000/api/album/" ++ utf16 "1" }] ∧
    (AlbumDetails.navigate (AlbumDetails.mount (utf16 "1")) (utf16 "2")).pending =
      (AlbumDetails.mount (utf16 "1")).pending ++
        [{ rid := (AlbumDetails.mount (utf16 "1")).issued,
           url := utf16 "http://localhost:5000/api/album/" ++ utf16 "2" }] ∧
    (AlbumDetails.navigate (AlbumDetails.mount (utf16 "1")) (utf16 "2")).id = utf16 "2" ∧
    AlbumDetails.navigate (AlbumDetails.mount (utf16 "1")) (AlbumDetails.mount (utf16 "1")).id =
      AlbumDetails.mount (utf16 "1") ∧
    ∃ w, AlbumDetails.run (AlbumDetails.mount (utf16 "1"))
        (AlbumDetails.navigations [utf16 "2"]) = some w ∧
      AlbumDetails.render w = some AlbumDetails.loadingView :=
  detail_request_per_id_and_initial_loading (utf16 "1") [utf16 "2"]
    (AlbumDetails.mount (utf16 "1")) (utf16 "2") (by decide)

/-! ## Detail View: stale responses -/

/-- C10: responses are applied with no sequence check. When the route changes from `a` to
`b` while the request for `a` is in flight, the response for `b` arrives first and the
response for `a` after it, the view ends up settled (`loading` false, nothing in flight)
and displaying the album of the request for `a`, although the current route id is `b`. -/
theorem stale_response_overwrites_newer (a b : JSString) (albumA albumB : JSValue)
    (hab : a ≠ b) (hA : albumA.truthy = true) :
    AlbumDetails.run (AlbumDetails.mount a) [AlbumDetails.Event.navigate b] =
      some { id := b, album := JSValue.null, loading := true,
             pending := [{ rid := 0, url := AlbumDetails.albumUrl a },
                         { rid := 1, url := AlbumDetails.albumUrl b }],
             issued := 2, console := [] } ∧
    AlbumDetails.run (AlbumDetails.mount a)
      [AlbumDetails.Event.navigate b, AlbumDetails.Event.settle 1 (some albumB),
       AlbumDetails.Event.settle 0 (some albumA)] =
      some { id := b, album := albumA, loading := false, pending := [], issued := 2,
             console := [] } ∧
    AlbumDetails.albumUrl a ≠ AlbumDetails.albumUrl b ∧
    AlbumDetails.render { id := b, album := albumA, loading := false, pending := [],
                          issued := 2, console := [] } = AlbumDetails.loadedView albumA := by
  have hba : ¬ b = a := fun h => hab h.symm
  refine ⟨?_, ?_, ?_, ?_⟩
  · simp [AlbumDetails.run, AlbumDetails.step, AlbumDetails.navigate, AlbumDetails.mount,
      AlbumDetails.fetchAlbumDetails, hba]
  · simp [AlbumDetails.run, AlbumDetails.step, AlbumDetails.navigate, AlbumDetails.mount,
      AlbumDetails.fetchAlbumDetails, AlbumDetails.settle, hba]
  · simp [AlbumDetails.albumUrl, hab]
  · simp [AlbumDetails.render, hA]

/-- Witness of C10: at `/album/1`, then `/album/2`; Blue Train arrives, then Kind of Blue:
the view at `/album/2` displays Kind of Blue. -/
theorem stale_response_overwrites_newer_witness :
    (AlbumDetails.loadedView kindOfBlueDetail).map Node.textContent = some (utf16
      "Kind of BlueMiles Davis - 1959Genres:JazzStyles:ModalTracklist:A1. So What (9:22)") ∧
    AlbumDetails.run (AlbumDetails.mount (utf16 "1"))
        [AlbumDetails.Event.navigate (utf16 "2")] =
      some { id := utf16 "2", album := JSValue.null, loading := true,
             pending := [{ rid := 0, url := AlbumDetails.albumUrl (utf16 "1") },
                         { rid := 1, url := AlbumDetails.albumUrl (utf16 "2") }],
             issued := 2, console := [] } ∧
    AlbumDetails.run (AlbumDetails.mount (utf16 "1"))
      [AlbumDetails.Event.navigate (utf16 "2"),
       AlbumDetails.Event.settle 1 (some blueTrainDetail),
       AlbumDetails.Event.settle 0 (some kindOfBlueDetail)] =
      some { id := utf16 "2", album := kindOfBlueDetail, loading := false, pending := [],
             issued := 2, console := [] } ∧
    AlbumDetails.albumUrl (utf16 "1") ≠ AlbumDetails.albumUrl (utf16 "2") ∧
    AlbumDetails.render { id := utf16 "2", album := kindOfBlueDetail, loading := false,
                          pending := [], issued := 2, console := [] } =
      AlbumDetails.loadedView kindOfBlueDetail :=
  ⟨rfl, stale_response_overwrites_newer (utf16 "1") (utf16 "2") kindOfBlueDetail
    blueTrainDetail (by decide) rfl⟩

/-! ## Detail View: genres, styles and tracks -/

/-- C8, as stated, fails: payloads are not validated. Both payloads below are non-null with
list-valued genres, styles and tracklist. A track whose duration is the number 0 is shown as
`A1. So What 0`: `0 && ...` is `0`, which React renders, so what follows the space is
neither nothing nor `(0)`. A genre that is an object makes rendering throw, so no badge is
rendered at all. -/
theorem unvalidated_lists_break_rendering :
    (zeroDurationDetail.field "tracklist").items.map (fun t => (t.field "duration").truthy) =
      [false] ∧
    (AlbumDetails.render
      (AlbumDetails.settle (AlbumDetails.mount (utf16 "1")) 0
        (some zeroDurationDetail))).map AlbumDetails.trackLines =
      some [utf16 "A1. So What 0"] ∧
    (objectGenreDetail.field "genres").items.length = 1 ∧
    (AlbumDetails.settle (AlbumDetails.mount (utf16 "1")) 0
      (some objectGenreDetail)).loading = false ∧
    AlbumDetails.render
      (AlbumDetails.settle (AlbumDetails.mount (utf16 "1")) 0 (some objectGenreDetail)) =
      none :=
  ⟨rfl, rfl, rfl, rfl, rfl⟩

/-- C8 (amended): for every loaded album that is a fully-formed Album Detail (a settled view
holding one), `AlbumDetails` renders exactly one badge per genre (`bg` primary) followed by
one per style (`bg` secondary) and one list item per track, in the order of the response,
each badge showing its label and each item showing position, `. `, title, a space, and
`(duration)` exactly when the track has a duration. -/
theorem loaded_album_lists (w : AlbumDetails.World) (hl : w.loading = false)
    (ha : isAlbumDetail w.album = true) :
    ∃ tree, AlbumDetails.render w = some tree ∧
      AlbumDetails.badgeFacts tree =
        (w.album.field "genres").items.map
          (fun g => (JSValue.str (utf16 "primary"), g.toStr)) ++
        (w.album.field "styles").items.map
          (fun s => (JSValue.str (utf16 "secondary"), s.toStr)) ∧
      (tree.byTag "Badge").length =
        (w.album.field "genres").items.length + (w.album.field "styles").items.length ∧
      AlbumDetails.trackLines tree = (w.album.field "tracklist").items.map trackLine ∧
      (tree.byTag "ListGroup.Item").length = (w.album.field "tracklist").items.length := by
  obtain ⟨htr, tree, h1, h2, h3, _⟩ := loadedView_of_detail w.album ha
  refine ⟨tree, by simp [AlbumDetails.render, hl, htr, h1], h2, ?_, h3, ?_⟩
  · have := congrArg List.length h2
    simpa [AlbumDetails.badgeFacts] using this
  · have := congrArg List.length h3
    simpa [AlbumDetails.trackLines] using this

/-- Witness of C8 (amended): the album of the spec's scenario renders the badges `Jazz` and `Modal` and
the track line `A1. So What (9:22)`; a track without a duration renders no parentheses. -/
theorem loaded_album_lists_witness :
    (List.map (fun g => (JSValue.str (utf16 "primary"), JSValue.toStr g))
        (kindOfBlueDetail.field "genres").items).map Prod.snd = [utf16 "Jazz"] ∧
    (List.map (fun s => (JSValue.str (utf16 "secondary"), JSValue.toStr s))
        (kindOfBlueDetail.field "styles").items).map Prod.snd = [utf16 "Modal"] ∧
    (kindOfBlueDetail.field "tracklist").items.map trackLine = [utf16 "A1. So What (9:22)"] ∧
    (blueTrainDetail.field "tracklist").items.map trackLine = [utf16 "A1. Blue Train "] ∧
    ∃ tree, AlbumDetails.render
        (AlbumDetails.settle (AlbumDetails.mount (utf16 "1")) 0 (some kindOfBlueDetail)) =
          some tree ∧
      AlbumDetails.badgeFacts tree =
        ((AlbumDetails.settle (AlbumDetails.mount (utf16 "1")) 0
            (some kindOfBlueDetail)).album.field "genres").items.map
          (fun g => (JSValue.str (utf16 "primary"), g.toStr)) ++
        ((AlbumDetails.settle (AlbumDetails.mount (utf16 "1")) 0
            (some kindOfBlueDetail)).album.field "styles").items.map
          (fun s => (JSValue.str (utf16 "secondary"), s.toStr)) ∧
      (tree.byTag "Badge").length =
        ((AlbumDetails.settle (AlbumDetails.mount (utf16 "1")) 0
            (some kindOfBlueDetail)).album.field "genres").items.length +
        ((AlbumDetails.settle (AlbumDetails.mount (utf16 "1")) 0
            (some kindOfBlueDetail)).album.field "styles").items.length ∧
      AlbumDetails.trackLines tree =
        ((AlbumDetails.settle (AlbumDetails.mount (utf16 "1")) 0
            (some kindOfBlueDetail)).album.field "tracklist").items.map trackLine ∧
      (tree.byTag "ListGroup.Item").length =
        ((AlbumDetails.settle (AlbumDetails.mount (utf16 "1")) 0
            (some kindOfBlueDetail)).album.field "tracklist").items.length :=
  ⟨rfl, rfl, rfl, rfl,
   loaded_album_lists
     (AlbumDetails.settle (AlbumDetails.mount (utf16 "1")) 0 (some kindOfBlueDetail)) rfl rfl⟩

/-! ## Both views: the model is the last successful payload -/

theorem AlbumDetails.album_step (w w2 : AlbumDetails.World) (e : AlbumDetails.Event)
    (h : AlbumDetails.step w e = some w2) :
    w2.album = (AlbumDetails.lastData [e]).getD w.album := by
  cases e with
  | navigate id =>
    simp only [AlbumDetails.step, Option.some.injEq] at h
    subst h
    unfold AlbumDetails.navigate
    split <;> rfl
  | settle rid outcome =>
    by_cases ha : w.pending.any (fun r => r.rid == rid) = true
    · simp only [AlbumDetails.step, ha, if_true, Option.some.injEq] at h
      subst h
      cases outcome <;> rfl
    · simp [AlbumDetails.step, ha] at h

theorem AlbumDetails.detail_lastData_cons (e : AlbumDetails.Event) (rest : List AlbumDetails.Event)
    (d : JSValue) :
    (AlbumDetails.lastData (e :: rest)).getD d =
      (AlbumDetails.lastData rest).getD ((AlbumDetails.lastData [e]).getD d) := by
  simp only [AlbumDetails.lastData]
  cases AlbumDetails.lastData rest with
  | some x => rfl
  | none => rfl

theorem AlbumDetails.album_run (evs : List AlbumDetails.Event) :
    ∀ w w2 : AlbumDetails.World, AlbumDetails.run w evs = some w2 →
      w2.album = (AlbumDetails.lastData evs).getD w.album := by
  induction evs with
  | nil =>
    intro w w2 h
    simp only [AlbumDetails.run, Option.some.injEq] at h
    subst h
    rfl
  | cons e evs ih =>
    intro w w2 h
    simp only [AlbumDetails.run] at h
    cases hs : AlbumDetails.step w e with
    | none => simp [hs] at h
    | some w1 =>
      simp only [hs] at h
      rw [ih w1 w2 h, AlbumDetails.album_step w w1 e hs]
      exact (AlbumDetails.detail_lastData_cons e evs w.album).symm

theorem AlbumDetails.detail_lastData_mem (evs : List AlbumDetails.Event) (d : JSValue)
    (h : AlbumDetails.lastData evs = some d) :
    ∃ rid, AlbumDetails.Event.settle rid (some d) ∈ evs := by
  induction evs with
  | nil => simp [AlbumDetails.lastData] at h
  | cons e evs ih =>
    simp only [AlbumDetails.lastData] at h
    cases hr : AlbumDetails.lastData evs with
    | some x =>
      simp only [hr, Option.some.injEq] at h
      subst h
      obtain ⟨rid, hm⟩ := ih hr
      exact ⟨rid, List.mem_cons_of_mem _ hm⟩
    | none =>
      simp only [hr] at h
      cases e with
      | navigate id => simp at h
      | settle rid outcome =>
        cases outcome with
        | none => simp at h
        | some x =>
          simp only [Option.some.injEq] at h
          subst h
          exact ⟨rid, List.mem_cons_self _ _⟩

theorem SearchPage.albums_step (w w2 : SearchPage.World) (e : SearchPage.Event)
    (h : SearchPage.step w e = some w2) :
    w2.albums = (SearchPage.lastData [e]).getD w.albums := by
  cases e with
  | change value =>
    simp only [SearchPage.step, Option.some.injEq] at h
    subst h
    rfl
  | submit =>
    by_cases hl : w.loading = true
    · simp [SearchPage.step, hl] at h
    · simp only [SearchPage.step, hl, Bool.false_eq_true, if_false, Option.some.injEq] at h
      subst h
      unfold SearchPage.handleSearch
      split
      · rfl
      · split <;> rfl
  | settle rid outcome =>
    by_cases ha : w.pending.any (fun r => r.rid == rid) = true
    · simp only [SearchPage.step, ha, if_true, Option.some.injEq] at h
      subst h
      cases outcome <;> rfl
    · simp [SearchPage.step, ha] at h

theorem SearchPage.search_lastData_cons (e : SearchPage.Event) (rest : List SearchPage.Event)
    (d : JSValue) :
    (SearchPage.lastData (e :: rest)).getD d =
      (SearchPage.lastData rest).getD ((SearchPage.lastData [e]).getD d) := by
  simp only [SearchPage.lastData]
  cases SearchPage.lastData rest with
  | some x => rfl
  | none => rfl

theorem SearchPage.albums_run (evs : List SearchPage.Event) :
    ∀ w w2 : SearchPage.World, SearchPage.run w evs = some w2 →
      w2.albums = (SearchPage.lastData evs).getD w.albums := by
  induction evs with
  | nil =>
    intro w w2 h
    simp only [SearchPage.run, Option.some.injEq] at h
    subst h
    rfl
  | cons e evs ih =>
    intro w w2 h
    simp only [SearchPage.run] at h
    cases hs : SearchPage.step w e with
    | none => simp [hs] at h
    | some w1 =>
      simp only [hs] at h
      rw [ih w1 w2 h, SearchPage.albums_step w w1 e hs]
      exact (SearchPage.search_lastData_cons e evs w.albums).symm

theorem SearchPage.search_lastData_mem (evs : List SearchPage.Event) (d : JSValue)
    (h : SearchPage.lastData evs = some d) :
    ∃ rid, SearchPage.Event.settle rid (some d) ∈ evs := by
  induction evs with
  | nil => simp [SearchPage.lastData] at h
  | cons e evs ih =>
    simp only [SearchPage.lastData] at h
    cases hr : SearchPage.lastData evs with
    | some x =>
      simp only [hr, Option.some.injEq] at h
      subst h
      obtain ⟨rid, hm⟩ := ih hr
      exact ⟨rid, List.mem_cons_of_mem _ hm⟩
    | none =>
      simp only [hr] at h
      cases e with
      | change value => simp at h
      | submit => simp at h
      | settle rid outcome =>
        cases outcome with
        | none => simp at h
        | some x =>
          simp only [Option.some.injEq] at h
          subst h
          exact ⟨rid, List.mem_cons_self _ _⟩

/-- C9, as stated, fails: payloads are not validated. A detail response that has a title and
empty lists but no artist and no year is rendered as a loaded card (`Kind of Blue`, then
` - ` with nothing around it), and a search response whose record has nothing but an id is
rendered as a result card; neither is a fully-formed record. -/
theorem incomplete_payload_is_displayed :
    isAlbumDetail incompleteDetail = false ∧
    (AlbumDetails.run (AlbumDetails.mount (utf16 "1"))
      [AlbumDetails.Event.settle 0 (some incompleteDetail)]).map AlbumDetails.observe =
      some (utf16 "1", [], false, some (utf16 "Kind of Blue - Genres:Styles:Tracklist:")) ∧
    isSummaryList incompleteSummaries = false ∧
    (SearchPage.run SearchPage.init
      [SearchPage.Event.change (utf16 "miles davis"), SearchPage.Event.submit,
       SearchPage.Event.settle 0 (some incompleteSummaries)]).bind SearchPage.observe =
      some (utf16 "Search AlbumsSearch - View Details") :=
  ⟨rfl, rfl, rfl, rfl⟩

/-- C9 (amended): over every sequence of events, neither view assembles or updates its model
piecemeal. The album `AlbumDetails` holds is `null` or, whole, the payload of the last
successful response, and the result list `SearchPage` holds is the empty array or, whole,
the payload of the last successful search response. Payloads are not validated: when every
successful response carried a fully-formed record (an Album Detail, an array of Album
Summaries), the album displayed in the loaded state is a fully-formed Album Detail and the
result list is a well-formed array of Album Summaries. When `AlbumDetails` is not in the
loaded state it renders `Loading...` or `Album not found`. -/
theorem model_is_last_successful_payload (id : JSString) (evs : List AlbumDetails.Event)
    (w : AlbumDetails.World) (h : AlbumDetails.run (AlbumDetails.mount id) evs = some w)
    (sevs : List SearchPage.Event) (v : SearchPage.World)
    (hs : SearchPage.run SearchPage.init sevs = some v) :
    w.album = (AlbumDetails.lastData evs).getD JSValue.null ∧
    v.albums = (SearchPage.lastData sevs).getD (JSValue.arr []) ∧
    ((∀ rid data, AlbumDetails.Event.settle rid (some data) ∈ evs →
        isAlbumDetail data = true) →
      w.loading = false → w.album.truthy = true → isAlbumDetail w.album = true) ∧
    ((∀ rid data, SearchPage.Event.settle rid (some data) ∈ sevs →
        isSummaryList data = true) →
      isSummaryList v.albums = true) ∧
    (¬ (w.loading = false ∧ w.album.truthy = true) →
      AlbumDetails.render w = some AlbumDetails.loadingView ∨
      AlbumDetails.render w = some AlbumDetails.notFoundView) := by
  have ha := AlbumDetails.album_run evs (AlbumDetails.mount id) w h
  have hv := SearchPage.albums_run sevs SearchPage.init v hs
  have ha2 : w.album = (AlbumDetails.lastData evs).getD JSValue.null := ha
  have hv2 : v.albums = (SearchPage.lastData sevs).getD (JSValue.arr []) := hv
  refine ⟨ha2, hv2, ?_, ?_, ?_⟩
  · intro hall _ htr
    cases hd : AlbumDetails.lastData evs with
    | none =>
      rw [ha2, hd] at htr
      simp [JSValue.truthy] at htr
    | some d =>
      obtain ⟨rid, hm⟩ := AlbumDetails.detail_lastData_mem evs d hd
      rw [ha2, hd]
      exact hall rid d hm
  · intro hall
    cases hd : SearchPage.lastData sevs with
    | none =>
      rw [hv2, hd]
      rfl
    | some d =>
      obtain ⟨rid, hm⟩ := SearchPage.search_lastData_mem sevs d hd
      rw [hv2, hd]
      exact hall rid d hm
  · intro hnot
    by_cases hl : w.loading = true
    · left
      simp [AlbumDetails.render, hl]
    · right
      have hl2 : w.loading = false := by simpa using hl
      have ht : w.album.truthy = false := by
        cases htr : w.album.truthy with
        | false => rfl
        | true => exact absurd ⟨hl2, htr⟩ hnot
      simp [AlbumDetails.render, hl2, ht]

/-- Witness of C9 (amended): `/album/1` receives Kind of Blue; a search for `miles davis`
receives the one-record array of the spec's scenario. -/
theorem model_is_last_successful_payload_witness :
    AlbumDetails.run (AlbumDetails.mount (utf16 "1"))
      [AlbumDetails.Event.settle 0 (some kindOfBlueDetail)] =
      some (AlbumDetails.settle (AlbumDetails.mount (utf16 "1")) 0 (some kindOfBlueDetail)) ∧
    SearchPage.run SearchPage.init
      [SearchPage.Event.change (utf16 "miles davis"), SearchPage.Event.submit,
       SearchPage.Event.settle 0 (some (JSValue.arr [kindOfBlueSummary]))] =
      some (SearchPage.settle (SearchPage.handleSearch (SearchPage.typed (utf16 "miles davis")))
        0 (some (JSValue.arr [kindOfBlueSummary]))) ∧
    isAlbumDetail
      (AlbumDetails.settle (AlbumDetails.mount (utf16 "1")) 0 (some kindOfBlueDetail)).album =
      true ∧
    isSummaryList
      (SearchPage.settle (SearchPage.handleSearch (SearchPage.typed (utf16 "miles davis")))
        0 (some (JSValue.arr [kindOfBlueSummary]))).albums = true ∧
    (AlbumDetails.render (AlbumDetails.mount (utf16 "1")) = some AlbumDetails.loadingView ∨
      AlbumDetails.render (AlbumDetails.mount (utf16 "1")) = some AlbumDetails.notFoundView) :=
  ⟨rfl, rfl,
   (model_is_last_successful_payload (utf16 "1")
      [AlbumDetails.Event.settle 0 (some kindOfBlueDetail)]
      (AlbumDetails.settle (AlbumDetails.mount (utf16 "1")) 0 (some kindOfBlueDetail)) rfl
      [SearchPage.Event.change (utf16 "miles davis"), SearchPage.Event.submit,
       SearchPage.Event.settle 0 (some (JSValue.arr [kindOfBlueSummary]))]
      (SearchPage.settle (SearchPage.handleSearch (SearchPage.typed (utf16 "miles davis")))
        0 (some (JSValue.arr [kindOfBlueSummary]))) rfl).2.2.1
      (by
        intro rid data hm
        simp only [List.mem_singleton, AlbumDetails.Event.settle.injEq, Option.some.injEq] at hm
        rw [hm.2]
        rfl) rfl rfl,
   (model_is_last_successful_payload (utf16 "1")
      [AlbumDetails.Event.settle 0 (some kindOfBlueDetail)]
      (AlbumDetails.settle (AlbumDetails.mount (utf16 "1")) 0 (some kindOfBlueDetail)) rfl
      [SearchPage.Event.change (utf16 "miles davis"), SearchPage.Event.submit,
       SearchPage.Event.settle 0 (some (JSValue.arr [kindOfBlueSummary]))]
      (SearchPage.settle (SearchPage.handleSearch (SearchPage.typed (utf16 "miles davis")))
        0 (some (JSValue.arr [kindOfBlueSummary]))) rfl).2.2.2.1
      (by
        intro rid data hm
        simp only [List.mem_cons, List.mem_singleton, SearchPage.Event.settle.injEq,
          Option.some.injEq, List.mem_nil_iff, or_false, reduceCtorEq, false_or] at hm
        rw [hm.2]
        rfl),
   (model_is_last_successful_payload (utf16 "1") [] (AlbumDetails.mount (utf16 "1")) rfl
      [] SearchPage.init rfl).2.2.2.2 (by decide)⟩

end AlbumCategorizer
